import Mathlib

/-!
Verification of the FOMC meeting-discussion core
(`src/fomc/data/meetings/discussion_service.py` and the orchestration in
`src/fomc/apps/web/backend.py`) against its natural-language specification.

Modelling conventions:
* Generator (LLM) outputs are JSON values, embedded as the inductive `JVal`
  below.  Numbers are restricted to integers: the generator contract used by
  this service only ever consumes integer-valued fields (`delta_bps` and the
  like), and floating point is outside the scope of the embedding.
* `json.loads` itself is an external library routine; functions that parse
  raw generator text take a `loads : String → Option Obj` argument standing
  for it.  The surrounding control flow (`_extract_json_object`, the retry
  wrapper `_llm_json`) is embedded faithfully.
* `llm.chat` is an external, effectful call; it is modelled as an oracle
  `chat : Nat → String` giving the raw text returned on the n-th attempt of
  a call site (the attempt index stands for the grown message list after a
  corrective re-prompt).
* File-system logging (`_log_prompt_run`) is fire-and-forget and wrapped in
  a bare `except: pass` in the source; it has no effect on any returned
  value and is not modelled.
-/

/-- A JSON value as produced by parsing generator output
(Python objects after `json.loads`).  Numbers are integer-valued
(see the module comment for the modelling boundary). -/
inductive JVal where
  | jnull : JVal
  | jbool : Bool → JVal
  | jint : Int → JVal
  | jstr : String → JVal
  | jarr : List JVal → JVal
  | jobj : List (String × JVal) → JVal
deriving Inhabited

/-- A Python dict with string keys (insertion-ordered association list). -/
abbrev Obj := List (String × JVal)

/-- `d.get(k)` on a Python dict: the value at the (unique) key `k`,
else `None`. -/
def objGet : Obj → String → JVal
  | [], _ => JVal.jnull
  | kv :: rest, k => if kv.1 = k then kv.2 else objGet rest k

/-- `d[k] = v` on a Python dict: update in place if the key exists,
append otherwise (insertion order preserved). -/
def setField : Obj → String → JVal → Obj
  | [], k, v => [(k, v)]
  | kv :: rest, k, v =>
    if kv.1 = k then (k, v) :: rest else kv :: setField rest k v

/-- `k in d` on a Python dict. -/
def hasField : Obj → String → Bool
  | [], _ => false
  | kv :: rest, k => kv.1 = k || hasField rest k

/-- Python truthiness of a JSON value (`bool(x)`). -/
def jTruthy : JVal → Bool
  | JVal.jnull => false
  | JVal.jbool b => b
  | JVal.jint n => n ≠ 0
  | JVal.jstr s => s ≠ ""
  | JVal.jarr xs => !xs.isEmpty
  | JVal.jobj fs => !fs.isEmpty

/-- Python `x or y`. -/
def pyOr (x y : JVal) : JVal := if jTruthy x then x else y

/-- `_ensure_list` (discussion_service.py:38-43): `None` becomes `[]`,
a list is kept, anything else is wrapped in a singleton. -/
def ensure_list : JVal → List JVal
  | JVal.jnull => []
  | JVal.jarr xs => xs
  | x => [x]

/-- ASCII whitespace characters stripped by Python `str.strip` /
matched by `\s` (the briefing text handled here is ASCII/UTF-8 markdown;
exotic unicode whitespace is outside the embedding). -/
def isWs (c : Char) : Bool := c = ' ' ∨ c = '\t' ∨ c = '\n' ∨ c = '\r'

/-- Characters of a string with leading and trailing whitespace removed. -/
def trimChars (cs : List Char) : List Char :=
  ((cs.dropWhile isWs).reverse.dropWhile isWs).reverse

/-- Python `str.strip()`. -/
def pyStrip (s : String) : String := String.mk (trimChars s.data)

/-- Python `str.lower()` (ASCII). -/
def pyLower (s : String) : String := String.mk (s.data.map Char.toLower)

/-- Python `str.upper()` (ASCII). -/
def pyUpper (s : String) : String := String.mk (s.data.map Char.toUpper)

/-- Split a character list into maximal whitespace-free words. -/
def wordsAux : List Char → List Char → List String
  | [], [] => []
  | [], acc => [String.mk acc.reverse]
  | c :: cs, acc =>
    if isWs c then
      match acc with
      | [] => wordsAux cs []
      | _ => String.mk acc.reverse :: wordsAux cs []
    else wordsAux cs (c :: acc)

/-- `sep.join(xs)` on strings. -/
def joinWith (sep : String) : List String → String
  | [] => ""
  | [x] => x
  | x :: xs => x ++ sep ++ joinWith sep xs

/-- `_normalize_ws` (discussion_service.py:34-35):
`re.sub(r"\s+", " ", s.strip())` — collapse whitespace runs to single
spaces and strip the ends. -/
def normalize_ws (s : String) : String :=
  joinWith " " (wordsAux s.data [])

/-- Digits of a decimal literal, most significant first; `none` if the
list is empty or contains a non-digit. -/
def digitsToNat : List Char → Option Nat
  | [] => none
  | cs => cs.foldl
      (fun acc c =>
        match acc with
        | none => none
        | some n => if c.isDigit then some (n * 10 + (c.toNat - 48)) else none)
      (some 0)

/-- Python `int(s)` on a string: optional surrounding whitespace, an
optional sign, then decimal digits. -/
def pyStrToInt (s : String) : Option Int :=
  match trimChars s.data with
  | [] => none
  | c :: cs =>
    if c = '-' then (digitsToNat cs).map (fun n => -(n : Int))
    else if c = '+' then (digitsToNat cs).map (fun n => (n : Int))
    else (digitsToNat (c :: cs)).map (fun n => (n : Int))

/-- `_to_int` (discussion_service.py:46-50): `int(x)`, `None` on failure.
`int` succeeds on ints, bools and integer-literal strings and raises on
everything else handled here. -/
def jToInt : JVal → Option Int
  | JVal.jint n => some n
  | JVal.jbool b => some (if b then 1 else 0)
  | JVal.jstr s => pyStrToInt s
  | _ => none

/-- The single-quote character, used by Python `repr` for strings. -/
def sqc : String := String.mk [Char.ofNat 39]

mutual
/-- Python `str(x)` for a parsed JSON value.  Scalars follow Python
exactly (`None`/`True`/`False`, decimal ints, identity on strings);
containers follow `repr` (single-quoted strings, bracketed elements;
escaping inside quoted strings is not modelled). -/
def pyStr : JVal → String
  | JVal.jnull => "None"
  | JVal.jbool b => if b then "True" else "False"
  | JVal.jint n => toString n
  | JVal.jstr s => s
  | JVal.jarr xs => "[" ++ pyReprList xs ++ "]"
  | JVal.jobj fs => "\x7b" ++ pyReprFields fs ++ "\x7d"

/-- Python `repr(x)` (strings single-quoted). -/
def pyRepr : JVal → String
  | JVal.jstr s => sqc ++ s ++ sqc
  | JVal.jnull => "None"
  | JVal.jbool b => if b then "True" else "False"
  | JVal.jint n => toString n
  | JVal.jarr xs => "[" ++ pyReprList xs ++ "]"
  | JVal.jobj fs => "\x7b" ++ pyReprFields fs ++ "\x7d"

/-- Comma-joined element reprs of a list. -/
def pyReprList : List JVal → String
  | [] => ""
  | [x] => pyRepr x
  | x :: xs => pyRepr x ++ ", " ++ pyReprList xs

/-- Comma-joined `key: value` reprs of a dict. -/
def pyReprFields : List (String × JVal) → String
  | [] => ""
  | [(k, v)] => sqc ++ k ++ sqc ++ ": " ++ pyRepr v
  | (k, v) :: fs => sqc ++ k ++ sqc ++ ": " ++ pyRepr v ++ ", " ++ pyReprFields fs
end

/-- Python `repr` of a list of strings (as in the f-string
`f"Invalid citations: facts={bad_f} ..."`). -/
def pyReprStrList (xs : List String) : String :=
  "[" ++ joinWith ", " (xs.map (fun s => sqc ++ s ++ sqc)) ++ "]"

/-- Iterating a parsed JSON value in a `for` loop: lists yield their
elements, strings their characters, dicts their keys.  (Iterating
`None`/int/bool raises `TypeError` in Python; those inputs are outside
the modelled domain and yield `[]` here.) -/
def pyIter : JVal → List JVal
  | JVal.jarr xs => xs
  | JVal.jstr s => s.data.map (fun c => JVal.jstr (String.mk [c]))
  | JVal.jobj fs => fs.map (fun kv => JVal.jstr kv.1)
  | _ => []

/-- Test whether `needle` occurs as a contiguous run inside `hay`
(Python `k in t` on strings). -/
def containsSub : List Char → List Char → Bool
  | [], needle => needle.isEmpty
  | c :: rest, needle => needle.isPrefixOf (c :: rest) || containsSub rest needle

/-- Index of the last occurrence of `c` in `cs`, if any (Python `str.rfind`). -/
def lastIdxOf (cs : List Char) (c : Char) : Option Nat :=
  match cs.reverse.findIdx? (fun x => x = c) with
  | some i => some (cs.length - 1 - i)
  | none => none

/-- `_extract_json_object` (discussion_service.py:17-31): reject empty
text, locate the first `\x7b` and last `\x7d` of the stripped text, and
parse that span with `json.loads` (the `loads` argument). -/
def extract_json_object (loads : String → Option Obj) (text : String) :
    Except String Obj :=
  if text = "" then Except.error "Empty LLM output"
  else
    let t := trimChars text.data
    match t.findIdx? (fun c => c = Char.ofNat 123), lastIdxOf t (Char.ofNat 125) with
    | some s, some e =>
      if s < e then
        match loads (String.mk ((t.drop s).take (e + 1 - s))) with
        | some o => Except.ok o
        | none => Except.error "json.loads failed"
      else Except.error "No JSON object found in output"
    | _, _ => Except.error "No JSON object found in output"

/-- Attempt loop of `_llm_json`: try `chat attempt`, return the first
successful parse, remember the last error otherwise.  On parse failure
the source appends a corrective user message before the next call; the
oracle's attempt index stands for that grown message list. -/
def llm_json_go (loads : String → Option Obj) (chat : Nat → String) :
    Nat → Nat → String → Except String Obj
  | _, 0, lastErr => Except.error lastErr
  | attempt, fuel + 1, _lastErr =>
    match extract_json_object loads (chat attempt) with
    | Except.ok o => Except.ok o
    | Except.error e => llm_json_go loads chat (attempt + 1) fuel e

/-- `_llm_json` (discussion_service.py:355-376): up to `max 1 (retry+1)`
generation attempts, each parsed by `_extract_json_object`; a parse failure
triggers a corrective re-prompt; the last failure is re-raised. -/
def llm_json (loads : String → Option Obj) (chat : Nat → String)
    (retry : Nat) : Except String Obj :=
  llm_json_go loads chat 0 (max 1 (retry + 1)) "Failed to get JSON from LLM"

/-- `RoleProfile` (discussion_service.py:61-66). -/
structure RoleProfile where
  role : String
  display_name : String
  bias : String
  style : String

/-- `DEFAULT_ROLES` (discussion_service.py:168-187). -/
def DEFAULT_ROLES : List RoleProfile :=
  [ { role := "centrist", display_name := "Centrist",
      bias := "偏中性：强调双重目标平衡，偏好渐进，重视政策滞后与风险对称性。",
      style := "克制、审慎、条理清晰，常用“在不确定性下的风险管理”措辞。" },
    { role := "hawk", display_name := "Hawk",
      bias := "偏鹰：更强调通胀与预期锚定风险，容忍短期增长放缓，倾向更强硬的指引。",
      style := "直接、有压迫感，但仍基于证据；会强调“通胀粘性/二次效应”。" },
    { role := "dove", display_name := "Dove",
      bias := "偏鸽：更强调就业与增长下行风险，关注金融条件收紧的滞后效应，倾向更耐心。",
      style := "温和、同理、强调“避免过度紧缩/硬着陆”。" } ]

/-- The allowed vote/stance delta list, `[-25, 0, 25] + ([-50, 50] if
crisis_mode else [])` (discussion_service.py:388 and :712). -/
def allowed_deltas (crisis_mode : Bool) : List Int :=
  [-25, 0, 25] ++ (if crisis_mode then [-50, 50] else [])

/-- The `id` values of the dict entries of `blackboard[key]`
(`{f.get("id") for f in (blackboard.get(key) or []) if isinstance(f, dict)}`). -/
def citationIds (blackboard : Obj) (key : String) : List JVal :=
  (pyIter (pyOr (objGet blackboard key) (JVal.jarr []))).filterMap
    (fun f => match f with
      | JVal.jobj fs => some (objGet fs "id")
      | _ => none)

/-- Python equality of a parsed JSON value against a `str` (only a string
with the same content compares equal). -/
def jEqStr (v : JVal) (x : String) : Bool :=
  match v with
  | JVal.jstr s => s = x
  | _ => false

/-- Membership of a cited ID string in the `id` set of a blackboard
section (`x not in facts_set` tests in `_validate_citations`). -/
def cited_ok (blackboard : Obj) (key : String) (x : String) : Bool :=
  (citationIds blackboard key).any (fun v => jEqStr v x)

/-- `[str(x) for x in _ensure_list(obj.get("cited_facts"))]`
(discussion_service.py:499, :756). -/
def record_cited_facts (r : Obj) : List String :=
  (ensure_list (objGet r "cited_facts")).map pyStr

/-- `[str(x) for x in _ensure_list(obj.get("cited_uncertainties"))]`
(discussion_service.py:500, :757). -/
def record_cited_uncertainties (r : Obj) : List String :=
  (ensure_list (objGet r "cited_uncertainties")).map pyStr

/-- `_validate_citations` (discussion_service.py:340-352): `(ok, error)`;
a cited ID is valid when it equals some `id` of the corresponding
blackboard section. -/
def validate_citations (cited_facts cited_uncertainties : List String)
    (blackboard : Obj) : Bool × String :=
  let bad_f := cited_facts.filter (fun x => !(cited_ok blackboard "facts" x))
  let bad_u := cited_uncertainties.filter (fun x => !(cited_ok blackboard "uncertainties" x))
  if bad_f ≠ [] ∨ bad_u ≠ [] then
    (false, "Invalid citations: facts=" ++ pyReprStrList bad_f
      ++ " uncertainties=" ++ pyReprStrList bad_u)
  else (true, "")

/-- `infer_crisis_mode` (discussion_service.py:324-337): keyword scan
over the fact texts. -/
def infer_crisis_mode (blackboard : Obj) : Bool :=
  (pyIter (pyOr (objGet blackboard "facts") (JVal.jarr []))).any
    (fun f => match f with
      | JVal.jobj fs =>
        ["紧急", "危机", "崩盘", "流动性枯竭"].any
          (fun k => containsSub (pyStr (pyOr (objGet fs "text") (JVal.jstr ""))).data k.data)
      | _ => false)

/-- `_format_fact_id` (discussion_service.py:53-54): `f"F{i:02d}"`. -/
def format_fact_id (i : Nat) : String :=
  "F" ++ (if i < 10 then "0" ++ toString i else toString i)

/-- `_format_uncertainty_id` (discussion_service.py:57-58): `f"U{i:02d}"`. -/
def format_uncertainty_id (i : Nat) : String :=
  "U" ++ (if i < 10 then "0" ++ toString i else toString i)

/-- One iteration of the facts loop of `build_blackboard`
(discussion_service.py:254-262); `i` is the 1-based `enumerate` index
over the truncated input list, used verbatim for the ID even when
earlier entries were skipped. -/
def fact_entry (i : Nat) (item : JVal) : Option Obj :=
  match item with
  | JVal.jobj fs =>
    let text := normalize_ws (pyStr (pyOr (objGet fs "text") (JVal.jstr "")))
    let source := pyLower (pyStrip (pyStr (pyOr (objGet fs "source") (JVal.jstr ""))))
    if text = "" ∨ ¬(source = "macro" ∨ source = "nfp" ∨ source = "cpi" ∨ source = "taylor")
    then none
    else some [("id", JVal.jstr (format_fact_id i)), ("text", JVal.jstr text),
               ("source", JVal.jstr source)]
  | _ => none

/-- The facts section of `build_blackboard`:
`enumerate(facts_in[:max_facts], start=1)` with invalid entries skipped. -/
def build_facts (max_facts : Nat) (facts_in : List JVal) : List Obj :=
  (facts_in.take max_facts).enum.filterMap (fun p => fact_entry (p.1 + 1) p.2)

/-- One iteration of the uncertainties loop (discussion_service.py:264-271). -/
def uncertainty_entry (i : Nat) (item : JVal) : Option Obj :=
  match item with
  | JVal.jobj fs =>
    let text := normalize_ws (pyStr (pyOr (objGet fs "text") (JVal.jstr "")))
    if text = "" then none
    else some [("id", JVal.jstr (format_uncertainty_id i)), ("text", JVal.jstr text)]
  | _ => none

/-- The uncertainties section of `build_blackboard`. -/
def build_uncertainties (max_uncertainties : Nat) (uncertainties_in : List JVal) :
    List Obj :=
  (uncertainties_in.take max_uncertainties).enum.filterMap
    (fun p => uncertainty_entry (p.1 + 1) p.2)

/-- One iteration of the policy-menu loop (discussion_service.py:274-282). -/
def menu_entry (it : JVal) : Option Obj :=
  match it with
  | JVal.jobj fs =>
    let key := pyStrip (pyStr (pyOr (objGet fs "key") (JVal.jstr "")))
    let label0 := pyStrip (pyStr (pyOr (objGet fs "label") (JVal.jstr "")))
    let label := if label0 = "" then key else label0
    match jToInt (objGet fs "delta_bps") with
    | some d =>
      if (key = "cut_25" ∨ key = "hold" ∨ key = "hike_25") ∧ (d = -25 ∨ d = 0 ∨ d = 25)
      then some [("key", JVal.jstr key), ("delta_bps", JVal.jint d),
                 ("label", JVal.jstr label)]
      else none
    | none => none
  | _ => none

/-- The default policy menu substituted when extraction yields no valid
entry (discussion_service.py:283-288). -/
def default_policy_menu : List Obj :=
  [ [("key", JVal.jstr "cut_25"), ("delta_bps", JVal.jint (-25)),
     ("label", JVal.jstr "降息 25bp")],
    [("key", JVal.jstr "hold"), ("delta_bps", JVal.jint 0),
     ("label", JVal.jstr "维持不变")],
    [("key", JVal.jstr "hike_25"), ("delta_bps", JVal.jint 25),
     ("label", JVal.jstr "加息 25bp")] ]

/-- The policy-menu section of `build_blackboard`. -/
def build_policy_menu (menu_in : List JVal) : List Obj :=
  let m := menu_in.filterMap menu_entry
  if m.isEmpty then default_policy_menu else m

/-- The fixed statement-slot key enum (discussion_service.py:290-299). -/
def slot_keys : List String :=
  ["economic_activity", "labor", "inflation", "financial_conditions",
   "risks", "policy_decision", "forward_guidance", "balance_sheet"]

/-- One iteration of the slots loop (discussion_service.py:300-307). -/
def slot_entry (it : JVal) : Option Obj :=
  match it with
  | JVal.jobj fs =>
    let key := pyStrip (pyStr (pyOr (objGet fs "key") (JVal.jstr "")))
    let guidance := pyStrip (pyStr (pyOr (objGet fs "guidance") (JVal.jstr "")))
    if slot_keys.contains key
    then some [("key", JVal.jstr key), ("guidance", JVal.jstr guidance)]
    else none
  | _ => none

/-- `sorted(slot_keys)` with empty guidance, substituted when no valid
slot was extracted (discussion_service.py:308-309). -/
def default_slots : List Obj :=
  ["balance_sheet", "economic_activity", "financial_conditions",
   "forward_guidance", "inflation", "labor", "policy_decision", "risks"].map
    (fun k => [("key", JVal.jstr k), ("guidance", JVal.jstr "")])

/-- The draft-statement-slots section of `build_blackboard`. -/
def build_slots (slots_in : List JVal) : List Obj :=
  let s := slots_in.filterMap slot_entry
  if s.isEmpty then default_slots else s

/-- Post-processing of `build_blackboard` on the parsed generator object
(discussion_service.py:249-321). -/
def build_blackboard_post (meeting_id : String)
    (max_facts max_uncertainties : Nat) (obj : Obj) : Obj :=
  [ ("meeting_id", JVal.jstr meeting_id),
    ("facts", JVal.jarr
      ((build_facts max_facts (ensure_list (objGet obj "facts"))).map JVal.jobj)),
    ("uncertainties", JVal.jarr
      ((build_uncertainties max_uncertainties
        (ensure_list (objGet obj "uncertainties"))).map JVal.jobj)),
    ("policy_menu", JVal.jarr
      ((build_policy_menu (ensure_list (objGet obj "policy_menu"))).map JVal.jobj)),
    ("draft_statement_slots", JVal.jarr
      ((build_slots (ensure_list (objGet obj "draft_statement_slots"))).map JVal.jobj)),
    ("rules", JVal.jobj
      [("facts_must_be_cited", JVal.jbool true),
       ("allowed_vote_deltas_bps",
        JVal.jarr [JVal.jint (-25), JVal.jint 0, JVal.jint 25])]) ]

/-- `build_blackboard` (discussion_service.py:190-321): a single
`llm.chat` call (`chat 0`), a single `_extract_json_object` parse — with
no retry wrapper — and the post-processing above.  The parse error
(`ValueError` / `json.JSONDecodeError`) propagates to the caller. -/
def build_blackboard (loads : String → Option Obj) (chat : Nat → String)
    (meeting_id : String) (max_facts max_uncertainties : Nat) :
    Except String Obj :=
  (extract_json_object loads (chat 0)).map
    (build_blackboard_post meeting_id max_facts max_uncertainties)

/-- Post-processing of `generate_stance_card` on the parsed generator
object (discussion_service.py:427-439): set `role`, coerce an
out-of-set `preferred_delta_bps` to `0` (silently — no flag field), and
flag invalid citations with `citation_error`. -/
def stance_card_post (role : String) (blackboard : Obj) (crisis_mode : Bool)
    (obj0 : Obj) : Obj :=
  let allowed := allowed_deltas crisis_mode
  let obj1 := setField obj0 "role" (JVal.jstr role)
  let obj2 :=
    match jToInt (objGet obj1 "preferred_delta_bps") with
    | some d =>
      if allowed.contains d then obj1
      else setField obj1 "preferred_delta_bps" (JVal.jint 0)
    | none => setField obj1 "preferred_delta_bps" (JVal.jint 0)
  let reasons := pyIter (pyOr (objGet obj2 "top_reasons") (JVal.jarr []))
  let cited_facts := reasons.filterMap
    (fun r => match r with
      | JVal.jobj fs => some (pyStr (objGet fs "fact_id"))
      | _ => none)
  let risks := pyIter (pyOr (objGet obj2 "key_risks") (JVal.jarr []))
  let cited_unc := risks.filterMap
    (fun r => match r with
      | JVal.jobj fs => some (pyStr (objGet fs "uncertainty_id"))
      | _ => none)
  let v := validate_citations cited_facts cited_unc blackboard
  if v.1 then obj2 else setField obj2 "citation_error" (JVal.jstr v.2)

/-- The citation-validation tail shared verbatim by
`generate_public_speech` (discussion_service.py:499-504) and
`generate_vote` (discussion_service.py:756-761): validate the record's
cited IDs and set `citation_error` on failure; the record is returned
either way. -/
def flag_citations (blackboard : Obj) (o : Obj) : Obj :=
  let v := validate_citations (record_cited_facts o)
    (record_cited_uncertainties o) blackboard
  if v.1 then o else setField o "citation_error" (JVal.jstr v.2)

/-- Post-processing of `generate_public_speech`
(discussion_service.py:498-504): set `role`, validate the cited IDs and
flag failures with `citation_error`; the record is returned either way. -/
def speech_post (role : String) (blackboard : Obj) (obj0 : Obj) : Obj :=
  flag_citations blackboard (setField obj0 "role" (JVal.jstr role))

/-- Post-processing of `generate_vote` (discussion_service.py:751-761):
set `role`, coerce an out-of-set `vote_delta_bps` to `0` recording
`invalid_vote_reason`, then validate citations as for speeches. -/
def vote_post (role : String) (blackboard : Obj) (crisis_mode : Bool)
    (obj0 : Obj) : Obj :=
  let allowed := allowed_deltas crisis_mode
  let obj1 := setField obj0 "role" (JVal.jstr role)
  let obj2 :=
    match jToInt (objGet obj1 "vote_delta_bps") with
    | some d =>
      if allowed.contains d then obj1
      else
        setField (setField obj1 "vote_delta_bps" (JVal.jint 0))
          "invalid_vote_reason" (JVal.jstr "vote_delta_bps out of allowed set")
    | none =>
      setField (setField obj1 "vote_delta_bps" (JVal.jint 0))
        "invalid_vote_reason" (JVal.jstr "vote_delta_bps out of allowed set")
  flag_citations blackboard obj2

/-- The three committee roles in chair round-robin order
(discussion_service.py:564). -/
def qa_roles : List String := ["centrist", "hawk", "dove"]

/-- One iteration of the directed-question loop of `chair_select_questions`
(discussion_service.py:554-561). -/
def directed_question_entry (it : JVal) : Option Obj :=
  match it with
  | JVal.jobj fs =>
    let to_role := pyLower (pyStrip (pyStr (pyOr (objGet fs "to_role") (JVal.jstr ""))))
    let q := normalize_ws (pyStr (pyOr (objGet fs "question") (JVal.jstr "")))
    if (to_role = "centrist" ∨ to_role = "hawk" ∨ to_role = "dove") ∧ q ≠ ""
    then some [("to_role", JVal.jstr to_role), ("question", JVal.jstr q)]
    else none
  | _ => none

/-- The round-robin fallback of `chair_select_questions`
(discussion_service.py:562-567): rebuild the whole list from
`open_questions[:max(3, min(max_questions, len(open_questions)))]`,
cycling `qa_roles`. -/
def fallback_questions (open_questions : List String) (max_questions : Nat) :
    List Obj :=
  (open_questions.take (max 3 (min max_questions open_questions.length))).enum.map
    (fun p => [("to_role", JVal.jstr (qa_roles.getD (p.1 % 3) "")),
               ("question", JVal.jstr (normalize_ws p.2))])

/-- The `directed_questions` list returned by `chair_select_questions`:
the first `max_questions` valid generator pairs, replaced wholesale by
the round-robin fallback whenever fewer than 3 are valid. -/
def chair_questions_dq (obj : Obj) (open_questions : List String)
    (max_questions : Nat) : List Obj :=
  let dq := ((ensure_list (objGet obj "directed_questions")).take
      max_questions).filterMap directed_question_entry
  if dq.length < 3 then fallback_questions open_questions max_questions else dq

/-- The full return value of `chair_select_questions`
(discussion_service.py:569-572). -/
def chair_questions_post (obj : Obj) (open_questions : List String)
    (max_questions : Nat) : Obj :=
  [("chair_preface_md",
    JVal.jstr (pyStrip (pyStr (pyOr (objGet obj "chair_preface_md") (JVal.jstr ""))))),
   ("directed_questions",
    JVal.jarr ((chair_questions_dq obj open_questions max_questions).map JVal.jobj))]

/-- The set of deltas allowed for packages
(discussion_service.py:617): the `delta_bps` values of the blackboard's
policy-menu dict entries (a Python set; only membership is used, so a
list with `contains` is an equivalent embedding). -/
def menu_allowed_deltas (blackboard : Obj) : List Int :=
  (pyIter (pyOr (objGet blackboard "policy_menu") (JVal.jarr []))).filterMap
    (fun it => match it with
      | JVal.jobj fs => jToInt (objGet fs "delta_bps")
      | _ => none)

/-- `key = str(it.get("key") or "").strip() or "A"`
(discussion_service.py:622). -/
def candidate_key (fs : Obj) : String :=
  let k := pyStrip (pyStr (pyOr (objGet fs "key") (JVal.jstr "")))
  if k = "" then "A" else k

/-- `stance = str(it.get("stance") or "").strip().lower()`
(discussion_service.py:624). -/
def candidate_stance (fs : Obj) : String :=
  pyLower (pyStrip (pyStr (pyOr (objGet fs "stance") (JVal.jstr ""))))

/-- `guidance = str(it.get("guidance") or "").strip()`
(discussion_service.py:625). -/
def candidate_guidance (fs : Obj) : String :=
  pyStrip (pyStr (pyOr (objGet fs "guidance") (JVal.jstr "")))

/-- One iteration of the package loop of `chair_propose_packages`
(discussion_service.py:619-630): a candidate is dropped only when it is
not a dict or its `delta_bps` is outside the menu deltas; an invalid
`stance` is coerced to `"neutral"` with the candidate retained.  (The
source computes key/stance/guidance before the delta test; they are
pure, so hoisting them into the helpers above is behaviour-preserving.) -/
def package_of_candidate (allowed : List Int) (it : JVal) : Option Obj :=
  match it with
  | JVal.jobj fs =>
    match jToInt (objGet fs "delta_bps") with
    | some d =>
      if allowed.contains d then
        some [("key", JVal.jstr (candidate_key fs)), ("delta_bps", JVal.jint d),
              ("stance", JVal.jstr
                (if candidate_stance fs = "hawkish" ∨ candidate_stance fs = "neutral"
                    ∨ candidate_stance fs = "dovish"
                 then candidate_stance fs else "neutral")),
              ("guidance", JVal.jstr (candidate_guidance fs))]
      else none
    | none => none
  | _ => none

/-- The fallback package substituted when every candidate was dropped
(discussion_service.py:631-632). -/
def fallback_package : Obj :=
  [("key", JVal.jstr "A"), ("delta_bps", JVal.jint 0),
   ("stance", JVal.jstr "neutral"),
   ("guidance", JVal.jstr "委员会将继续评估最新数据对前景的影响。")]

/-- The `packages` list returned by `chair_propose_packages`: the first
3 candidates filtered as above, or the fallback package. -/
def chair_packages_list (blackboard : Obj) (obj : Obj) : List Obj :=
  let allowed := menu_allowed_deltas blackboard
  let pkgs := ((ensure_list (objGet obj "packages")).take 3).filterMap
    (package_of_candidate allowed)
  if pkgs.isEmpty then [fallback_package] else pkgs

/-- The full return value of `chair_propose_packages`
(discussion_service.py:633). -/
def chair_packages_post (blackboard : Obj) (obj : Obj) : Obj :=
  [("chair_transition_md",
    JVal.jstr (pyStrip (pyStr (pyOr (objGet obj "chair_transition_md") (JVal.jstr ""))))),
   ("packages", JVal.jarr ((chair_packages_list blackboard obj).map JVal.jobj))]

/-- One iteration of the views loop of `generate_package_preference`
(discussion_service.py:685-697): a view with an invalid `view` enum or
failing citation validation is dropped entirely. -/
def package_view_entry (blackboard : Obj) (it : JVal) : Option Obj :=
  match it with
  | JVal.jobj fs =>
    let pk := pyStrip (pyStr (pyOr (objGet fs "package_key") (JVal.jstr "")))
    let view := pyLower (pyStrip (pyStr (pyOr (objGet fs "view") (JVal.jstr ""))))
    let because := normalize_ws (pyStr (pyOr (objGet fs "because") (JVal.jstr "")))
    let cited := record_cited_facts fs
    if ¬(view = "support" ∨ view = "acceptable" ∨ view = "oppose") then none
    else if (validate_citations cited [] blackboard).1 then
      some [("package_key", JVal.jstr pk), ("view", JVal.jstr view),
            ("because", JVal.jstr because),
            ("cited_facts", JVal.jarr (cited.map JVal.jstr))]
    else none
  | _ => none

/-- The return value of `generate_package_preference`
(discussion_service.py:683-698): a fresh two-field record (the
`obj["role"]` mutation of the parsed object on line 683 is discarded —
the function returns a new dict). -/
def package_preference_post (role : String) (blackboard : Obj) (obj : Obj) : Obj :=
  [("role", JVal.jstr role),
   ("package_views",
    JVal.jarr (((ensure_list (objGet obj "package_views")).filterMap
      (package_view_entry blackboard)).map JVal.jobj))]

/-- `_vote_bucket` inside `chair_write_statement_and_minutes`
(discussion_service.py:840-848): sign of the int-converted delta;
`unknown` when the conversion fails. -/
def vote_bucket (delta : JVal) : String :=
  match jToInt delta with
  | none => "unknown"
  | some d => if d < 0 then "cut" else if d > 0 then "hike" else "hold"

/-- The engine-computed tally `{cut, hold, hike, unknown}`. -/
structure Tally where
  cut : Nat
  hold : Nat
  hike : Nat
  unknown : Nat
deriving DecidableEq, Repr

/-- `tally[bucket] += 1` for a bucket string produced by `vote_bucket`
(which only ever returns one of the four bucket names; any other string
would raise `KeyError` in Python and is mapped to `unknown` here —
unreachable from `vote_bucket`). -/
def tally_add (t : Tally) (b : String) : Tally :=
  if b = "cut" then { t with cut := t.cut + 1 }
  else if b = "hold" then { t with hold := t.hold + 1 }
  else if b = "hike" then { t with hike := t.hike + 1 }
  else { t with unknown := t.unknown + 1 }

/-- One iteration of the tally loop: bucket a dict vote record by its
`vote_delta_bps`; skip non-dict entries (discussion_service.py:851-854). -/
def tally_step (t : Tally) (v : JVal) : Tally :=
  match v with
  | JVal.jobj fs => tally_add t (vote_bucket (objGet fs "vote_delta_bps"))
  | _ => t

/-- The tally loop of `chair_write_statement_and_minutes`
(discussion_service.py:850-854). -/
def compute_tally (votes : List JVal) : Tally :=
  votes.foldl tally_step ⟨0, 0, 0, 0⟩

/-- `sum(tally.values())` (discussion_service.py:858). -/
def tally_total (t : Tally) : Nat := t.cut + t.hold + t.hike + t.unknown

/-- `max(tally["cut"], tally["hold"], tally["hike"])`
(discussion_service.py:859). -/
def tally_passed (t : Tally) : Nat := max t.cut (max t.hold t.hike)

/-- The deterministic `vote_summary` string injected into the prompt,
`f"{passed}:{max(0, total - passed)}"` (discussion_service.py:856-860).
It is computed by the engine from the actual vote records; the prompt
assembly, `roles_in_vote` listing and the statement/minutes text
post-processing (lines 834-907) consume it unchanged. -/
def vote_summary (votes : List JVal) : String :=
  let t := compute_tally votes
  let total := tally_total t
  let passed := tally_passed t
  toString passed ++ ":" ++ toString (max 0 ((total : Int) - (passed : Int)))

/-- `generate_stance_card` (discussion_service.py:379-439): one
retry-wrapped generation call, then the post-processing above. -/
def generate_stance_card (loads : String → Option Obj) (chat : Nat → String)
    (role : RoleProfile) (blackboard : Obj) (crisis_mode : Bool) :
    Except String Obj :=
  (llm_json loads chat 1).map (stance_card_post role.role blackboard crisis_mode)

/-- `generate_public_speech` (discussion_service.py:442-504). -/
def generate_public_speech (loads : String → Option Obj) (chat : Nat → String)
    (role : RoleProfile) (blackboard : Obj) : Except String Obj :=
  (llm_json loads chat 1).map (speech_post role.role blackboard)

/-- `chair_select_questions` (discussion_service.py:507-572). -/
def chair_select_questions (loads : String → Option Obj) (chat : Nat → String)
    (open_questions : List String) (max_questions : Nat) : Except String Obj :=
  (llm_json loads chat 1).map
    (fun obj => chair_questions_post obj open_questions max_questions)

/-- `chair_propose_packages` (discussion_service.py:575-633). -/
def chair_propose_packages (loads : String → Option Obj) (chat : Nat → String)
    (blackboard : Obj) : Except String Obj :=
  (llm_json loads chat 1).map (chair_packages_post blackboard)

/-- `generate_package_preference` (discussion_service.py:636-698). -/
def generate_package_preference (loads : String → Option Obj)
    (chat : Nat → String) (role : RoleProfile) (blackboard : Obj) :
    Except String Obj :=
  (llm_json loads chat 1).map (package_preference_post role.role blackboard)

/-- `generate_vote` (discussion_service.py:701-761). -/
def generate_vote (loads : String → Option Obj) (chat : Nat → String)
    (role : RoleProfile) (blackboard : Obj) (crisis_mode : Bool) :
    Except String Obj :=
  (llm_json loads chat 1).map (vote_post role.role blackboard crisis_mode)

/-- `fmt_fact` inside `render_discussion_markdown`
(discussion_service.py:927-928). -/
def fmt_fact (f : Obj) : String :=
  let i := pyStr (objGet f "id")
  let src := pyStr (objGet f "source")
  let t := pyStr (objGet f "text")
  s!"- `{i}` [{src}] {t}"

/-- `fmt_unc` (discussion_service.py:930-931). -/
def fmt_unc (u : Obj) : String :=
  let i := pyStr (objGet u "id")
  let t := pyStr (objGet u "text")
  s!"- `{i}` {t}"

/-- `fmt_speech` (discussion_service.py:933-944). -/
def fmt_speech (block : Obj) : String :=
  let who := pyUpper (pyStrip (pyStr (pyOr (objGet block "role") (JVal.jstr ""))))
  let md := pyStrip (pyStr (pyOr (objGet block "speech_md") (JVal.jstr "")))
  let cited_f := joinWith ", " ((ensure_list (objGet block "cited_facts")).map pyStr)
  let cited_u := joinWith ", " ((ensure_list (objGet block "cited_uncertainties")).map pyStr)
  let cite_line :=
    (if cited_f ≠ "" then [s!"facts: {cited_f}"] else [])
    ++ (if cited_u ≠ "" then [s!"uncertainties: {cited_u}"] else [])
  let joined := joinWith " · " cite_line
  let cite := if cite_line.isEmpty then "" else s!"\n\n> 引用：{joined}"
  s!"**{who}**：\n\n{md}{cite}\n"

/-- `render_discussion_markdown` (discussion_service.py:910-1031):
pure deterministic templating of the recorded phase artifacts into one
markdown transcript, in the fixed section order of the source.  The
function takes no generator oracle — it is string assembly only.
(Inside the per-view citation footer the source joins
`it.get("cited_facts") or []` directly; elements are rendered with
`str` here, which is the identity on the string lists produced
upstream.) -/
def render_discussion_markdown (meeting_id : String) (blackboard : Obj)
    (crisis_mode : Bool) (stance_cards : Obj) (opening_speeches : List Obj)
    (chair_q : Obj) (qa_speeches : List Obj) (packages : Obj)
    (package_views : List JVal) (votes : List JVal) : String :=
  let facts := pyIter (pyOr (objGet blackboard "facts") (JVal.jarr []))
  let uncs := pyIter (pyOr (objGet blackboard "uncertainties") (JVal.jarr []))
  let policy_menu := pyIter (pyOr (objGet blackboard "policy_menu") (JVal.jarr []))
  let cm := if crisis_mode then "true" else "false"
  let header :=
    ["# 委员讨论逐字记录（模拟）\n", s!"Meeting: {meeting_id}\n",
     s!"- crisis_mode: `{cm}`\n", ""]
  let fact_lines := facts.filterMap
    (fun f => match f with | JVal.jobj fs => some (fmt_fact fs) | _ => none)
  let unc_lines := uncs.filterMap
    (fun u => match u with | JVal.jobj fs => some (fmt_unc fs) | _ => none)
  let menu_lines := policy_menu.filterMap
    (fun it => match it with
      | JVal.jobj fs =>
        let k := pyStr (objGet fs "key")
        let lb := pyStr (objGet fs "label")
        let d := pyStr (objGet fs "delta_bps")
        some s!"- `{k}`: {lb}（{d}bp）"
      | _ => none)
  let stance_lines := stance_cards.filterMap
    (fun kv => match kv.2 with
      | JVal.jobj fs =>
        let k := kv.1
        let d := pyStr (objGet fs "preferred_delta_bps")
        some s!"- {k}: preferred_delta_bps={d}"
      | _ => none)
  let opening_lines := opening_speeches.flatMap
    (fun b =>
      let q := pyStrip (pyStr (pyOr (objGet b "ask_one_question") (JVal.jstr "")))
      [fmt_speech b] ++ (if q ≠ "" then [s!"> 定向问题：{q}\n"] else []))
  let preface := pyStrip (pyStr (pyOr (objGet chair_q "chair_preface_md") (JVal.jstr "")))
  let preface_lines := if preface ≠ "" then [s!"**CHAIR**：\n\n{preface}\n"] else []
  let dq := (pyIter (pyOr (objGet chair_q "directed_questions") (JVal.jarr []))).filterMap
    (fun it => match it with | JVal.jobj fs => some fs | _ => none)
  let qa_lines := dq.enum.flatMap
    (fun p =>
      let tr := pyStr (objGet p.2 "to_role")
      let qq := pyStr (objGet p.2 "question")
      [s!"**CHAIR（点名）**：请 `{tr}` 回答：{qq}\n",
       if p.1 < qa_speeches.length then fmt_speech (qa_speeches.getD p.1 [])
       else "> （暂无回答记录）\n"])
  let trans := pyStrip (pyStr (pyOr (objGet packages "chair_transition_md") (JVal.jstr "")))
  let trans_lines := if trans ≠ "" then [s!"**CHAIR**：\n\n{trans}\n"] else []
  let pkg_lines := (pyIter (pyOr (objGet packages "packages") (JVal.jarr []))).filterMap
    (fun pv => match pv with
      | JVal.jobj fs =>
        let k := pyStr (objGet fs "key")
        let d := pyStr (objGet fs "delta_bps")
        let st := pyStr (objGet fs "stance")
        let g := pyStr (objGet fs "guidance")
        some s!"- 包{k}: delta_bps={d} · {st} · {g}"
      | _ => none)
  let view_lines := package_views.flatMap
    (fun v => match v with
      | JVal.jobj fs =>
        let role := pyUpper (pyStr (objGet fs "role"))
        let viewsV := pyOr (objGet fs "package_views") (JVal.jarr [])
        if ¬ jTruthy viewsV then []
        else
          [s!"**{role}**："]
          ++ (pyIter viewsV).filterMap
            (fun it => match it with
              | JVal.jobj g =>
                let pk := pyStr (objGet g "package_key")
                let vw := pyStr (objGet g "view")
                let bc := pyStr (objGet g "because")
                let cf := joinWith ", "
                  ((pyIter (pyOr (objGet g "cited_facts") (JVal.jarr []))).map pyStr)
                some s!"- {pk}: {vw} · {bc}（引用 {cf}）"
              | _ => none)
          ++ [""]
      | _ => [])
  let vote_lines := votes.flatMap
    (fun v => match v with
      | JVal.jobj fs =>
        let role := pyUpper (pyStr (pyOr (objGet fs "role") (JVal.jstr "")))
        let delta := pyStr (objGet fs "vote_delta_bps")
        let reason := pyStrip (pyStr (pyOr (objGet fs "reason") (JVal.jstr "")))
        let cf := joinWith ", " ((ensure_list (objGet fs "cited_facts")).map pyStr)
        let cu := joinWith ", " ((ensure_list (objGet fs "cited_uncertainties")).map pyStr)
        let base := s!"- **{role}**：{delta}bp · {reason}（facts: {cf} | uncertainties: {cu}）"
        let ds := pyStrip (pyStr (pyOr (objGet fs "dissent_sentence") (JVal.jstr "")))
        if jTruthy (objGet fs "dissent") ∧ ds ≠ "" then [base, s!"  - 异议：{ds}"]
        else [base]
      | _ => [])
  let lines :=
    header
    ++ ["## 讨论底稿（可引用要点 / facts）\n"] ++ fact_lines ++ [""]
    ++ ["## 关键不确定性（uncertainties）\n"] ++ unc_lines ++ [""]
    ++ ["## 可投政策选项（policy_menu）\n"] ++ menu_lines ++ [""]
    ++ ["## Phase 1：立场卡（私有，不进入逐字稿）\n"] ++ stance_lines ++ [""]
    ++ ["## Phase 2：开场陈述（公开）\n"] ++ opening_lines ++ [""]
    ++ ["## Phase 3：定向质询（公开）\n"] ++ preface_lines ++ qa_lines ++ [""]
    ++ ["## Phase 4：政策包讨论与投票\n"] ++ trans_lines
    ++ ["### 主持人提出的政策方案\n"] ++ pkg_lines ++ [""]
    ++ ["### 委员对政策方案的态度\n"] ++ view_lines
    ++ ["### 正式投票\n"] ++ vote_lines ++ [""]
  pyStrip (joinWith "\n" lines) ++ "\n"

/-- The artifact names tested by the cache check of
`ensure_meeting_discussion_pack` (backend.py:494) — six names; the
`round_summaries` and `packages` artifacts are not part of the check. -/
def pack_cache_keys : List String :=
  ["discussion", "statement", "minutes_summary", "votes", "blackboard",
   "stance_cards"]

/-- The eight artifact names written by a full discussion run, in write
order (backend.py:661-669). -/
def pack_artifact_names : List String :=
  ["blackboard", "stance_cards", "round_summaries", "packages", "votes",
   "discussion", "statement", "minutes_summary"]

/-- The cache decision of `ensure_meeting_discussion_pack`
(backend.py:493-498): skip regeneration iff `refresh` is unset and every
one of `pack_cache_keys` already has a manifest entry. -/
def pack_is_cached (refresh : Bool) (existing : List String) : Bool :=
  !refresh && pack_cache_keys.all (fun k => existing.contains k)

/-- Manifest-name-level model of `ensure_meeting_discussion_pack`
(backend.py:481-671): on a cache hit the stored manifest is returned
untouched (`cached = true`, nothing regenerated or rewritten); otherwise
the full pipeline runs and writes all eight artifacts, adding any
missing manifest entries.  Artifact bytes are generator-dependent and
live outside this model; what is modelled is which artifacts are
(re)written. -/
def ensure_meeting_discussion_pack (refresh : Bool) (existing : List String) :
    List String × Bool :=
  if pack_is_cached refresh existing then (existing, true)
  else (existing ++ pack_artifact_names.filter (fun k => !existing.contains k),
        false)

theorem objGet_setField_same (fs : Obj) (k : String) (v : JVal) :
    objGet (setField fs k v) k = v := by
  induction fs with
  | nil => simp [setField, objGet]
  | cons kv rest ih =>
    by_cases h : kv.1 = k
    · simp [setField, h, objGet]
    · simp [setField, h, objGet, ih]

theorem objGet_setField_ne (fs : Obj) (k k' : String) (v : JVal)
    (h : k' ≠ k) : objGet (setField fs k v) k' = objGet fs k' := by
  have h' : k ≠ k' := Ne.symm h
  induction fs with
  | nil => simp [setField, objGet, h']
  | cons kv rest ih =>
    by_cases hk : kv.1 = k
    · subst hk
      simp [setField, objGet, h']
    · by_cases hk' : kv.1 = k'
      · simp [setField, hk, objGet, hk', h]
      · simp [setField, hk, objGet, hk', ih]

theorem hasField_setField_same (fs : Obj) (k : String) (v : JVal) :
    hasField (setField fs k v) k = true := by
  induction fs with
  | nil => simp [setField, hasField]
  | cons kv rest ih =>
    by_cases h : kv.1 = k
    · simp [setField, h, hasField]
    · simp [setField, h, hasField, ih]

theorem hasField_setField_ne (fs : Obj) (k k' : String) (v : JVal)
    (h : k' ≠ k) : hasField (setField fs k v) k' = hasField fs k' := by
  have h' : k ≠ k' := Ne.symm h
  induction fs with
  | nil => simp [setField, hasField, h']
  | cons kv rest ih =>
    by_cases hk : kv.1 = k
    · subst hk
      simp [setField, hasField, h']
    · simp [setField, hk, hasField, ih]

/-- A vote record whose delta converts to a negative int. -/
def delta_neg (v : JVal) : Bool :=
  match v with
  | JVal.jobj fs =>
    match jToInt (objGet fs "vote_delta_bps") with
    | some d => decide (d < 0)
    | none => false
  | _ => false

/-- A vote record whose delta converts to zero. -/
def delta_zero (v : JVal) : Bool :=
  match v with
  | JVal.jobj fs =>
    match jToInt (objGet fs "vote_delta_bps") with
    | some d => decide (d = 0)
    | none => false
  | _ => false

/-- A vote record whose delta converts to a positive int. -/
def delta_pos (v : JVal) : Bool :=
  match v with
  | JVal.jobj fs =>
    match jToInt (objGet fs "vote_delta_bps") with
    | some d => decide (0 < d)
    | none => false
  | _ => false

/-- A vote record whose delta fails int conversion. -/
def delta_unknown (v : JVal) : Bool :=
  match v with
  | JVal.jobj fs =>
    match jToInt (objGet fs "vote_delta_bps") with
    | some _ => false
    | none => true
  | _ => false

theorem compute_tally_go (votes : List JVal) : ∀ t : Tally,
    votes.foldl tally_step t =
      ⟨t.cut + votes.countP delta_neg, t.hold + votes.countP delta_zero,
       t.hike + votes.countP delta_pos, t.unknown + votes.countP delta_unknown⟩ := by
  induction votes with
  | nil => intro t; simp [List.countP_nil]
  | cons v rest ih =>
    intro t
    match v with
    | JVal.jobj fs =>
      simp only [List.foldl_cons, tally_step]
      rcases hdd : jToInt (objGet fs "vote_delta_bps") with _ | d
      · rw [ih]
        simp [vote_bucket, hdd, tally_add, delta_neg, delta_zero, delta_pos,
          delta_unknown, List.countP_cons]
        omega
      · rcases lt_trichotomy d 0 with hd | hd | hd
        · rw [ih]
          simp [vote_bucket, hdd, hd, tally_add, delta_neg, delta_zero, delta_pos,
            delta_unknown, List.countP_cons, not_lt.mpr (le_of_lt hd), hd.ne]
          omega
        · subst hd
          rw [ih]
          simp [vote_bucket, hdd, tally_add, delta_neg, delta_zero, delta_pos,
            delta_unknown, List.countP_cons]
          omega
        · rw [ih]
          simp [vote_bucket, hdd, hd, tally_add, delta_neg, delta_zero, delta_pos,
            delta_unknown, List.countP_cons, not_lt.mpr (le_of_lt hd), hd.ne]
          omega
    | JVal.jnull =>
      simp only [List.foldl_cons, tally_step]
      rw [ih]
      simp [delta_neg, delta_zero, delta_pos, delta_unknown, List.countP_cons]
    | JVal.jbool b =>
      simp only [List.foldl_cons, tally_step]
      rw [ih]
      simp [delta_neg, delta_zero, delta_pos, delta_unknown, List.countP_cons]
    | JVal.jint n =>
      simp only [List.foldl_cons, tally_step]
      rw [ih]
      simp [delta_neg, delta_zero, delta_pos, delta_unknown, List.countP_cons]
    | JVal.jstr s =>
      simp only [List.foldl_cons, tally_step]
      rw [ih]
      simp [delta_neg, delta_zero, delta_pos, delta_unknown, List.countP_cons]
    | JVal.jarr xs =>
      simp only [List.foldl_cons, tally_step]
      rw [ih]
      simp [delta_neg, delta_zero, delta_pos, delta_unknown, List.countP_cons]

theorem tally_total_add (t : Tally) (b : String) :
    tally_total (tally_add t b) = tally_total t + 1 := by
  unfold tally_add
  split_ifs <;> simp [tally_total] <;> omega

theorem tally_passed_le_total (t : Tally) : tally_passed t ≤ tally_total t := by
  simp [tally_passed, tally_total]
  omega

theorem foldl_tally_total (votes : List JVal) : ∀ t : Tally,
    (∀ v ∈ votes, ∃ fs, v = JVal.jobj fs) →
    tally_total (votes.foldl tally_step t) = tally_total t + votes.length := by
  induction votes with
  | nil => intro t _; simp
  | cons v rest ih =>
    intro t h
    obtain ⟨fs, rfl⟩ := h v (by simp)
    simp only [List.foldl_cons, tally_step]
    rw [ih _ (fun w hw => h w (List.mem_cons_of_mem _ hw)), tally_total_add]
    simp [List.length_cons]
    omega

/-- **C1**: for every list of `N` (dict) vote records passed to
`chair_write_statement_and_minutes`, the engine computes the tally by
bucketing each vote on the sign of its int-converted `vote_delta_bps`
(negative = cut, positive = hike, zero = hold, unconvertible = unknown):
the four buckets are exactly the counts of those four vote classes,
`cut + hold + hike + unknown = N`, and the injected `vote_summary`
string equals `"passed:(N-passed)"` with `passed = max(cut, hold, hike)`. -/
theorem chair_tally_deterministic (votes : List JVal)
    (h : ∀ v ∈ votes, ∃ fs, v = JVal.jobj fs) :
    compute_tally votes =
      ⟨votes.countP delta_neg, votes.countP delta_zero,
       votes.countP delta_pos, votes.countP delta_unknown⟩ ∧
    tally_total (compute_tally votes) = votes.length ∧
    vote_summary votes =
      toString (tally_passed (compute_tally votes)) ++ ":" ++
        toString (votes.length - tally_passed (compute_tally votes)) := by
  have h1 : compute_tally votes =
      ⟨votes.countP delta_neg, votes.countP delta_zero,
       votes.countP delta_pos, votes.countP delta_unknown⟩ := by
    unfold compute_tally
    rw [compute_tally_go]
    simp
  have h2 : tally_total (compute_tally votes) = votes.length := by
    unfold compute_tally
    rw [foldl_tally_total _ _ h]
    simp [tally_total]
  refine ⟨h1, h2, ?_⟩
  have hp : tally_passed (compute_tally votes) ≤ votes.length := by
    rw [← h2]
    exact tally_passed_le_total _
  show toString (tally_passed (compute_tally votes)) ++ ":"
      ++ toString (max 0 ((tally_total (compute_tally votes) : Int)
        - (tally_passed (compute_tally votes) : Int)))
    = _
  rw [h2]
  have hmax : (max 0 ((votes.length : Int) - (tally_passed (compute_tally votes) : Int)))
      = ((votes.length - tally_passed (compute_tally votes) : Nat) : Int) := by
    omega
  rw [hmax]
  rfl

/-- Witness for `chair_tally_deterministic`: the spec's end-to-end
example — votes −25, 0, −25 give tally sum 3 and summary `"2:1"`. -/
theorem chair_tally_deterministic_witness :
    vote_summary [JVal.jobj [("vote_delta_bps", JVal.jint (-25))],
      JVal.jobj [("vote_delta_bps", JVal.jint 0)],
      JVal.jobj [("vote_delta_bps", JVal.jint (-25))]] = "2:1" ∧
    tally_total (compute_tally [JVal.jobj [("vote_delta_bps", JVal.jint (-25))],
      JVal.jobj [("vote_delta_bps", JVal.jint 0)],
      JVal.jobj [("vote_delta_bps", JVal.jint (-25))]]) = 3 := by
  have h := chair_tally_deterministic
    [JVal.jobj [("vote_delta_bps", JVal.jint (-25))],
     JVal.jobj [("vote_delta_bps", JVal.jint 0)],
     JVal.jobj [("vote_delta_bps", JVal.jint (-25))]]
    (by intro v hv; fin_cases hv <;> exact ⟨_, rfl⟩)
  refine ⟨?_, h.2.1⟩
  rw [h.2.2]
  decide

theorem objGet_ite_setField_ne (c : Prop) [Decidable c] (o : Obj)
    (k k' : String) (v : JVal) (h : k' ≠ k) :
    objGet (if c then o else setField o k v) k' = objGet o k' := by
  split_ifs
  · rfl
  · exact objGet_setField_ne _ _ _ _ h

theorem hasField_ite_setField_ne (c : Prop) [Decidable c] (o : Obj)
    (k k' : String) (v : JVal) (h : k' ≠ k) :
    hasField (if c then o else setField o k v) k' = hasField o k' := by
  split_ifs
  · rfl
  · exact hasField_setField_ne _ _ _ _ h

theorem objGet_flag_citations (bb : Obj) (o : Obj) (k : String)
    (h : k ≠ "citation_error") :
    objGet (flag_citations bb o) k = objGet o k := by
  unfold flag_citations
  exact objGet_ite_setField_ne _ _ _ _ _ h

theorem hasField_flag_citations (bb : Obj) (o : Obj) (k : String)
    (h : k ≠ "citation_error") :
    hasField (flag_citations bb o) k = hasField o k := by
  unfold flag_citations
  exact hasField_ite_setField_ne _ _ _ _ _ h

theorem stance_card_post_delta (role : String) (bb : Obj) (crisis : Bool)
    (obj : Obj) :
    objGet (stance_card_post role bb crisis obj) "preferred_delta_bps" =
      (match jToInt (objGet obj "preferred_delta_bps") with
       | some d =>
         if (allowed_deltas crisis).contains d then objGet obj "preferred_delta_bps"
         else JVal.jint 0
       | none => JVal.jint 0) := by
  have hrole : objGet (setField obj "role" (JVal.jstr role)) "preferred_delta_bps"
      = objGet obj "preferred_delta_bps" := objGet_setField_ne _ _ _ _ (by decide)
  unfold stance_card_post
  simp only [hrole]
  rcases hd : jToInt (objGet obj "preferred_delta_bps") with _ | d
  · rw [objGet_ite_setField_ne _ _ _ _ _ (by decide)]
    exact objGet_setField_same _ _ _
  · by_cases hc : (allowed_deltas crisis).contains d
    · simp only [hc, if_true]
      rw [objGet_ite_setField_ne _ _ _ _ _ (by decide)]
      exact hrole
    · simp only [hc, if_false]
      rw [objGet_ite_setField_ne _ _ _ _ _ (by decide)]
      exact objGet_setField_same _ _ _

theorem vote_post_delta (role : String) (bb : Obj) (crisis : Bool) (obj : Obj) :
    objGet (vote_post role bb crisis obj) "vote_delta_bps" =
      (match jToInt (objGet obj "vote_delta_bps") with
       | some d =>
         if (allowed_deltas crisis).contains d then objGet obj "vote_delta_bps"
         else JVal.jint 0
       | none => JVal.jint 0) := by
  have hrole : objGet (setField obj "role" (JVal.jstr role)) "vote_delta_bps"
      = objGet obj "vote_delta_bps" := objGet_setField_ne _ _ _ _ (by decide)
  unfold vote_post
  simp only [hrole]
  rcases hd : jToInt (objGet obj "vote_delta_bps") with _ | d
  · rw [objGet_flag_citations _ _ _ (by decide),
      objGet_setField_ne _ _ _ _ (by decide)]
    exact objGet_setField_same _ _ _
  · by_cases hc : (allowed_deltas crisis).contains d
    · simp only [hc, if_true]
      rw [objGet_flag_citations _ _ _ (by decide)]
      exact hrole
    · simp only [hc, Bool.false_eq_true, if_false]
      rw [objGet_flag_citations _ _ _ (by decide),
        objGet_setField_ne _ _ _ _ (by decide)]
      exact objGet_setField_same _ _ _

theorem vote_post_flag (role : String) (bb : Obj) (crisis : Bool) (obj : Obj)
    (h : ∀ d : Int, jToInt (objGet obj "vote_delta_bps") = some d →
      (allowed_deltas crisis).contains d = false) :
    hasField (vote_post role bb crisis obj) "invalid_vote_reason" = true := by
  have hrole : objGet (setField obj "role" (JVal.jstr role)) "vote_delta_bps"
      = objGet obj "vote_delta_bps" := objGet_setField_ne _ _ _ _ (by decide)
  unfold vote_post
  simp only [hrole]
  rcases hd : jToInt (objGet obj "vote_delta_bps") with _ | d
  · rw [hasField_flag_citations _ _ _ (by decide)]
    exact hasField_setField_same _ _ _
  · simp only [h d hd, Bool.false_eq_true, if_false]
    rw [hasField_flag_citations _ _ _ (by decide)]
    exact hasField_setField_same _ _ _

theorem stance_card_post_no_flag (role : String) (bb : Obj) (crisis : Bool)
    (obj : Obj) (h : hasField obj "invalid_vote_reason" = false) :
    hasField (stance_card_post role bb crisis obj) "invalid_vote_reason" = false := by
  have hrole : hasField (setField obj "role" (JVal.jstr role)) "invalid_vote_reason"
      = hasField obj "invalid_vote_reason" := hasField_setField_ne _ _ _ _ (by decide)
  unfold stance_card_post
  rw [hasField_ite_setField_ne _ _ _ _ _ (by decide)]
  rcases hd : jToInt (objGet (setField obj "role" (JVal.jstr role)) "preferred_delta_bps")
    with _ | d
  · rw [hasField_setField_ne _ _ _ _ (by decide), hrole]
    exact h
  · by_cases hc : (allowed_deltas crisis).contains d
    · simp only [hc, if_true]
      rw [hrole]
      exact h
    · simp only [hc, Bool.false_eq_true, if_false]
      rw [hasField_setField_ne _ _ _ _ (by decide), hrole]
      exact h

/-- **C2**: every stance card / vote record has a `preferred_delta_bps` /
`vote_delta_bps` whose int value lies in the active allowed-delta set —
`{-25, 0, 25}` without crisis mode, `{-50, -25, 0, 25, 50}` with it —
and a generator value outside that set is coerced to `0` in the returned
record (never dropped, never left unchanged). -/
theorem generated_deltas_in_domain (role : String) (bb : Obj) (crisis : Bool)
    (obj : Obj) :
    (∀ d : Int, d ∈ allowed_deltas false ↔ (d = -25 ∨ d = 0 ∨ d = 25)) ∧
    (∀ d : Int, d ∈ allowed_deltas true ↔
      (d = -50 ∨ d = -25 ∨ d = 0 ∨ d = 25 ∨ d = 50)) ∧
    (∃ d : Int, jToInt (objGet (stance_card_post role bb crisis obj)
        "preferred_delta_bps") = some d ∧ d ∈ allowed_deltas crisis) ∧
    (∃ d : Int, jToInt (objGet (vote_post role bb crisis obj)
        "vote_delta_bps") = some d ∧ d ∈ allowed_deltas crisis) ∧
    ((∀ d : Int, jToInt (objGet obj "preferred_delta_bps") = some d →
        d ∉ allowed_deltas crisis) →
      objGet (stance_card_post role bb crisis obj) "preferred_delta_bps"
        = JVal.jint 0) ∧
    ((∀ d : Int, jToInt (objGet obj "vote_delta_bps") = some d →
        d ∉ allowed_deltas crisis) →
      objGet (vote_post role bb crisis obj) "vote_delta_bps" = JVal.jint 0) := by
  have hz : ∀ c : Bool, (0 : Int) ∈ allowed_deltas c := by
    intro c
    cases c <;> decide
  refine ⟨?_, ?_, ?_, ?_, ?_, ?_⟩
  · intro d
    simp [allowed_deltas]
  · intro d
    simp [allowed_deltas]
    tauto
  · rw [stance_card_post_delta]
    rcases hd : jToInt (objGet obj "preferred_delta_bps") with _ | d
    · exact ⟨0, rfl, hz crisis⟩
    · by_cases hc : (allowed_deltas crisis).contains d
      · simp only [hc, if_true]
        exact ⟨d, hd, List.elem_iff.mp hc⟩
      · simp only [hc, Bool.false_eq_true, if_false]
        exact ⟨0, rfl, hz crisis⟩
  · rw [vote_post_delta]
    rcases hd : jToInt (objGet obj "vote_delta_bps") with _ | d
    · exact ⟨0, rfl, hz crisis⟩
    · by_cases hc : (allowed_deltas crisis).contains d
      · simp only [hc, if_true]
        exact ⟨d, hd, List.elem_iff.mp hc⟩
      · simp only [hc, Bool.false_eq_true, if_false]
        exact ⟨0, rfl, hz crisis⟩
  · intro h
    rw [stance_card_post_delta]
    rcases hd : jToInt (objGet obj "preferred_delta_bps") with _ | d
    · rfl
    · by_cases hc : (allowed_deltas crisis).contains d
      · exact absurd (List.elem_iff.mp hc) (h d hd)
      · simp only [hc, Bool.false_eq_true, if_false]
  · intro h
    rw [vote_post_delta]
    rcases hd : jToInt (objGet obj "vote_delta_bps") with _ | d
    · rfl
    · by_cases hc : (allowed_deltas crisis).contains d
      · exact absurd (List.elem_iff.mp hc) (h d hd)
      · simp only [hc, Bool.false_eq_true, if_false]

/-- Witness for `generated_deltas_in_domain`: an out-of-set `100` and an
unconvertible `"abc"` both coerce to `0`. -/
theorem generated_deltas_in_domain_witness :
    objGet (stance_card_post "hawk" [] false
      [("preferred_delta_bps", JVal.jint 100)]) "preferred_delta_bps"
      = JVal.jint 0 ∧
    objGet (vote_post "hawk" [] false
      [("vote_delta_bps", JVal.jstr "abc")]) "vote_delta_bps" = JVal.jint 0 := by
  constructor
  · exact (generated_deltas_in_domain "hawk" [] false
      [("preferred_delta_bps", JVal.jint 100)]).2.2.2.2.1
      (by intro d hd
          have h100 : (100 : Int) = d := Option.some.inj hd
          rw [← h100]
          decide)
  · exact (generated_deltas_in_domain "hawk" [] false
      [("vote_delta_bps", JVal.jstr "abc")]).2.2.2.2.2
      (by intro d hd; exact Option.noConfusion hd)

/-- **C8 counterexample**: `generate_stance_card` coerces an out-of-set
`preferred_delta_bps` (here `100`) to `0` *silently* — the returned
record is exactly the input with the delta zeroed and `role` set, with
no `invalid_vote_reason` (nor any other flag field) recorded, contrary
to the claim that the stance card is "likewise flagged". -/
theorem stance_coercion_unflagged :
    stance_card_post "hawk" [] false [("preferred_delta_bps", JVal.jint 100)]
      = [("preferred_delta_bps", JVal.jint 0), ("role", JVal.jstr "hawk")] ∧
    hasField (stance_card_post "hawk" [] false
      [("preferred_delta_bps", JVal.jint 100)]) "invalid_vote_reason" = false ∧
    hasField (stance_card_post "hawk" [] false
      [("preferred_delta_bps", JVal.jint 100)]) "citation_error" = false :=
  ⟨rfl, rfl, rfl⟩

/-- **C8 as amended**: out-of-domain delta coercion is soft and never
raised (the embedded functions are total); `generate_vote` records
`invalid_vote_reason` whenever it coerces `vote_delta_bps`, while
`generate_stance_card` coerces `preferred_delta_bps` silently, adding no
flag field. -/
theorem coercion_soft_and_flagged (role : String) (bb : Obj) (crisis : Bool)
    (obj : Obj) :
    ((∀ d : Int, jToInt (objGet obj "vote_delta_bps") = some d →
        d ∉ allowed_deltas crisis) →
      objGet (vote_post role bb crisis obj) "vote_delta_bps" = JVal.jint 0 ∧
      hasField (vote_post role bb crisis obj) "invalid_vote_reason" = true) ∧
    ((∀ d : Int, jToInt (objGet obj "preferred_delta_bps") = some d →
        d ∉ allowed_deltas crisis) →
      objGet (stance_card_post role bb crisis obj) "preferred_delta_bps"
        = JVal.jint 0) ∧
    (hasField obj "invalid_vote_reason" = false →
      hasField (stance_card_post role bb crisis obj) "invalid_vote_reason"
        = false) := by
  refine ⟨?_, ?_, stance_card_post_no_flag role bb crisis obj⟩
  · intro h
    have hb : ∀ d : Int, jToInt (objGet obj "vote_delta_bps") = some d →
        (allowed_deltas crisis).contains d = false := by
      intro d hd
      by_cases hc : (allowed_deltas crisis).contains d
      · exact absurd (List.elem_iff.mp hc) (h d hd)
      · simpa using hc
    refine ⟨?_, vote_post_flag role bb crisis obj hb⟩
    rw [vote_post_delta]
    rcases hd : jToInt (objGet obj "vote_delta_bps") with _ | d
    · rfl
    · simp only [hb d hd, Bool.false_eq_true, if_false]
  · intro h
    rw [stance_card_post_delta]
    rcases hd : jToInt (objGet obj "preferred_delta_bps") with _ | d
    · rfl
    · by_cases hc : (allowed_deltas crisis).contains d
      · exact absurd (List.elem_iff.mp hc) (h d hd)
      · simp only [hc, Bool.false_eq_true, if_false]

/-- Witness for `coercion_soft_and_flagged`: a vote delta `100` is
coerced and flagged; a stance delta `100` is coerced without a flag. -/
theorem coercion_soft_and_flagged_witness :
    (objGet (vote_post "dove" [] false [("vote_delta_bps", JVal.jint 100)])
      "vote_delta_bps" = JVal.jint 0 ∧
     hasField (vote_post "dove" [] false [("vote_delta_bps", JVal.jint 100)])
      "invalid_vote_reason" = true) ∧
    hasField (stance_card_post "dove" [] false
      [("preferred_delta_bps", JVal.jint 100)]) "invalid_vote_reason" = false := by
  constructor
  · exact (coercion_soft_and_flagged "dove" [] false
      [("vote_delta_bps", JVal.jint 100)]).1
      (by intro d hd
          have h100 : (100 : Int) = d := Option.some.inj hd
          rw [← h100]
          decide)
  · exact (coercion_soft_and_flagged "dove" [] false
      [("preferred_delta_bps", JVal.jint 100)]).2.2 rfl

theorem validate_citations_ok_iff (cf cu : List String) (bb : Obj) :
    (validate_citations cf cu bb).1 = true ↔
      ((∀ x ∈ cf, cited_ok bb "facts" x = true) ∧
       (∀ x ∈ cu, cited_ok bb "uncertainties" x = true)) := by
  unfold validate_citations
  dsimp only
  split_ifs with h
  · constructor
    · intro hx
      exact absurd hx (by decide)
    · rintro ⟨h1, h2⟩
      exfalso
      rcases h with hf | hu
      · refine hf ?_
        rw [List.filter_eq_nil_iff]
        intro a ha
        simp [h1 a ha]
      · refine hu ?_
        rw [List.filter_eq_nil_iff]
        intro a ha
        simp [h2 a ha]
  · push_neg at h
    obtain ⟨hf, hu⟩ := h
    rw [List.filter_eq_nil_iff] at hf hu
    constructor
    · intro _
      constructor
      · intro x hx
        simpa using hf x hx
      · intro x hx
        simpa using hu x hx
    · intro _
      rfl

theorem flag_citations_spec (bb : Obj) (o : Obj) :
    ((∀ x ∈ record_cited_facts (flag_citations bb o), cited_ok bb "facts" x = true) ∧
     (∀ x ∈ record_cited_uncertainties (flag_citations bb o),
        cited_ok bb "uncertainties" x = true))
    ∨ hasField (flag_citations bb o) "citation_error" = true := by
  have hcf : record_cited_facts (flag_citations bb o) = record_cited_facts o := by
    unfold record_cited_facts
    rw [objGet_flag_citations _ _ _ (by decide)]
  have hcu : record_cited_uncertainties (flag_citations bb o)
      = record_cited_uncertainties o := by
    unfold record_cited_uncertainties
    rw [objGet_flag_citations _ _ _ (by decide)]
  by_cases hv : (validate_citations (record_cited_facts o)
      (record_cited_uncertainties o) bb).1 = true
  · left
    rw [hcf, hcu]
    exact (validate_citations_ok_iff _ _ _).mp hv
  · right
    unfold flag_citations
    dsimp only
    simp only [hv, if_false]
    exact hasField_setField_same _ _ _

theorem flag_citations_flag_iff (bb : Obj) (o : Obj)
    (h : hasField o "citation_error" = false) :
    hasField (flag_citations bb o) "citation_error" = true ↔
      ¬ ((∀ x ∈ record_cited_facts o, cited_ok bb "facts" x = true) ∧
         (∀ x ∈ record_cited_uncertainties o,
            cited_ok bb "uncertainties" x = true)) := by
  unfold flag_citations
  dsimp only
  by_cases hv : (validate_citations (record_cited_facts o)
      (record_cited_uncertainties o) bb).1 = true
  · simp only [hv, if_true]
    rw [h]
    simp only [Bool.false_eq_true, false_iff, not_not]
    exact (validate_citations_ok_iff _ _ _).mp hv
  · simp only [hv, Bool.false_eq_true, if_false]
    rw [hasField_setField_same]
    simp only [true_iff]
    intro hok
    exact hv ((validate_citations_ok_iff _ _ _).mpr hok)

theorem package_view_entry_valid (bb : Obj) (it : JVal) (w : Obj)
    (h : package_view_entry bb it = some w) :
    ∀ x ∈ record_cited_facts w, cited_ok bb "facts" x = true := by
  match it with
  | JVal.jobj g =>
    unfold package_view_entry at h
    dsimp only at h
    generalize hcg : record_cited_facts g = cited at h
    split_ifs at h with h1 h2
    · injection h with hw
      subst hw
      intro x hx
      simp [record_cited_facts, objGet, ensure_list, List.map_map, pyStr] at hx
      exact ((validate_citations_ok_iff cited [] bb).mp h2).1 x hx
  | JVal.jnull => exact absurd h (by simp [package_view_entry])
  | JVal.jbool b => exact absurd h (by simp [package_view_entry])
  | JVal.jint n => exact absurd h (by simp [package_view_entry])
  | JVal.jstr s => exact absurd h (by simp [package_view_entry])
  | JVal.jarr xs => exact absurd h (by simp [package_view_entry])

/-- **C3**: every Speech and Vote record either cites only fact /
uncertainty IDs that exist in the blackboard, or is still returned
carrying a `citation_error` field; every per-package view retained by
`generate_package_preference` has fully valid citations (failing views
are dropped from the returned list), and the PackagePreference record
itself never carries a `citation_error` field. -/
theorem citations_flagged_or_dropped (role : String) (bb : Obj) (crisis : Bool)
    (obj : Obj) :
    (((∀ x ∈ record_cited_facts (speech_post role bb obj),
         cited_ok bb "facts" x = true) ∧
      (∀ x ∈ record_cited_uncertainties (speech_post role bb obj),
         cited_ok bb "uncertainties" x = true))
     ∨ hasField (speech_post role bb obj) "citation_error" = true) ∧
    (((∀ x ∈ record_cited_facts (vote_post role bb crisis obj),
         cited_ok bb "facts" x = true) ∧
      (∀ x ∈ record_cited_uncertainties (vote_post role bb crisis obj),
         cited_ok bb "uncertainties" x = true))
     ∨ hasField (vote_post role bb crisis obj) "citation_error" = true) ∧
    (objGet (package_preference_post role bb obj) "package_views"
      = JVal.jarr (((ensure_list (objGet obj "package_views")).filterMap
          (package_view_entry bb)).map JVal.jobj)) ∧
    (∀ w ∈ (ensure_list (objGet obj "package_views")).filterMap
        (package_view_entry bb),
      ∀ x ∈ record_cited_facts w, cited_ok bb "facts" x = true) ∧
    hasField (package_preference_post role bb obj) "citation_error" = false := by
  refine ⟨?_, ?_, ?_, ?_, ?_⟩
  · unfold speech_post
    exact flag_citations_spec bb _
  · unfold vote_post
    exact flag_citations_spec bb _
  · rfl
  · intro w hw
    obtain ⟨it, hit, hsome⟩ := List.mem_filterMap.mp hw
    exact package_view_entry_valid bb it w hsome
  · rfl

/-- Witness for `citations_flagged_or_dropped`: a speech citing the
nonexistent `F09` (flag-or-valid disjunction) and a package preference
whose only view cites `F09` (record returned unflagged, view dropped). -/
theorem citations_flagged_or_dropped_witness :
    (((∀ x ∈ record_cited_facts (speech_post "hawk"
         [("facts", JVal.jarr [JVal.jobj [("id", JVal.jstr "F01")]])]
         [("cited_facts", JVal.jarr [JVal.jstr "F09"])]),
        cited_ok [("facts", JVal.jarr [JVal.jobj [("id", JVal.jstr "F01")]])]
          "facts" x = true) ∧
      (∀ x ∈ record_cited_uncertainties (speech_post "hawk"
         [("facts", JVal.jarr [JVal.jobj [("id", JVal.jstr "F01")]])]
         [("cited_facts", JVal.jarr [JVal.jstr "F09"])]),
        cited_ok [("facts", JVal.jarr [JVal.jobj [("id", JVal.jstr "F01")]])]
          "uncertainties" x = true))
     ∨ hasField (speech_post "hawk"
         [("facts", JVal.jarr [JVal.jobj [("id", JVal.jstr "F01")]])]
         [("cited_facts", JVal.jarr [JVal.jstr "F09"])]) "citation_error" = true) ∧
    hasField (package_preference_post "hawk"
      [("facts", JVal.jarr [JVal.jobj [("id", JVal.jstr "F01")]])]
      [("package_views", JVal.jarr [JVal.jobj
        [("package_key", JVal.jstr "A"), ("view", JVal.jstr "support"),
         ("cited_facts", JVal.jarr [JVal.jstr "F09"])]])])
      "citation_error" = false :=
  ⟨(citations_flagged_or_dropped "hawk"
      [("facts", JVal.jarr [JVal.jobj [("id", JVal.jstr "F01")]])] false
      [("cited_facts", JVal.jarr [JVal.jstr "F09"])]).1,
   (citations_flagged_or_dropped "hawk"
      [("facts", JVal.jarr [JVal.jobj [("id", JVal.jstr "F01")]])] false
      [("package_views", JVal.jarr [JVal.jobj
        [("package_key", JVal.jstr "A"), ("view", JVal.jstr "support"),
         ("cited_facts", JVal.jarr [JVal.jstr "F09"])]])]).2.2.2.2⟩

/-- **C4 counterexample**: with no valid generator pair, one open
question and `max_questions = 6`, the returned `directed_questions` list
has 1 entry, not the claimed `max(3, min(max_questions,
len(open_questions))) = 3` — the fallback slices `open_questions` and
cannot exceed its length. -/
theorem chair_questions_short_pool :
    (chair_questions_dq [] ["q1"] 6).length
      ≠ max 3 (min 6 (List.length ["q1"])) := by decide

/-- **C4 as amended**: whenever the generator yields fewer than 3 valid
`{to_role, question}` pairs, `chair_select_questions` discards them all
and rebuilds the list deterministically, cycling roles
`[centrist, hawk, dove, …]` over the `open_questions` pool truncated to
`max(3, min(max_questions, len(open_questions)))`; the result therefore
has exactly `min(max(3, min(max_questions, len(open_questions))),
len(open_questions))` entries — which is the claimed total only when
`open_questions` has at least 3 entries. -/
theorem chair_questions_fallback (obj : Obj) (oq : List String) (M : Nat)
    (h : (((ensure_list (objGet obj "directed_questions")).take M).filterMap
        directed_question_entry).length < 3) :
    chair_questions_dq obj oq M = fallback_questions oq M ∧
    (chair_questions_dq obj oq M).length
      = min (max 3 (min M oq.length)) oq.length ∧
    (∀ i : Nat, ∀ hi : i < (fallback_questions oq M).length,
      ∀ hoq : i < oq.length,
      (fallback_questions oq M).get ⟨i, hi⟩
        = [("to_role", JVal.jstr (qa_roles.getD (i % 3) "")),
           ("question", JVal.jstr (normalize_ws (oq.get ⟨i, hoq⟩)))]) := by
  have hdq : chair_questions_dq obj oq M = fallback_questions oq M := by
    unfold chair_questions_dq
    dsimp only
    rw [if_pos h]
  have hlen : (fallback_questions oq M).length
      = min (max 3 (min M oq.length)) oq.length := by
    simp [fallback_questions, List.length_take]
  refine ⟨hdq, by rw [hdq, hlen], ?_⟩
  intro i hi hoq
  simp only [fallback_questions, List.get_eq_getElem, List.getElem_map,
    List.getElem_enum, List.getElem_take]

/-- Witness for `chair_questions_fallback`: an empty generator object
and a 4-question pool produce the 4-entry round-robin fallback. -/
theorem chair_questions_fallback_witness :
    chair_questions_dq [] ["qa", "qb", "qc", "qd"] 6
      = fallback_questions ["qa", "qb", "qc", "qd"] 6 ∧
    (chair_questions_dq [] ["qa", "qb", "qc", "qd"] 6).length
      = min (max 3 (min 6 (List.length ["qa", "qb", "qc", "qd"])))
          (List.length ["qa", "qb", "qc", "qd"]) := by
  have h := chair_questions_fallback [] ["qa", "qb", "qc", "qd"] 6 (by decide)
  exact ⟨h.1, h.2.1⟩

/-- **C5 counterexample**: on a generator whose first output contains no
JSON object but whose corrective-retry output would parse, the retry
wrapper (`_llm_json`, retry = 1) succeeds — yet `build_blackboard` fails
outright with the generic extractor `ValueError`: it parses the single
`chat 0` output with `_extract_json_object` directly, issues no
corrective re-prompt, and no `BlackboardBuildError` type exists anywhere
in the repository. -/
theorem blackboard_parse_error_cx :
    build_blackboard (fun s => if s = "{}" then some [] else none)
      (fun n => if n = 0 then "no json here" else "{}") "m1" 28 8
      = Except.error "No JSON object found in output" ∧
    llm_json (fun s => if s = "{}" then some [] else none)
      (fun n => if n = 0 then "no json here" else "{}") 1
      = Except.ok ([] : Obj) := ⟨rfl, rfl⟩

/-- **C5 as amended**: `build_blackboard` parses the generator output
exactly once and propagates the generic parse error (`ValueError` /
`json.JSONDecodeError`) of that single attempt unchanged — no corrective
retry, and no dedicated `BlackboardBuildError`; the one-corrective-retry
behaviour lives only in `_llm_json` (used by every other generation
call), which succeeds on the second attempt after a first parse
failure. -/
theorem build_blackboard_no_retry (loads : String → Option Obj)
    (chat : Nat → String) (mid : String) (mf mu : Nat) (e : String) :
    (extract_json_object loads (chat 0) = Except.error e →
      build_blackboard loads chat mid mf mu = Except.error e) ∧
    (∀ o : Obj, extract_json_object loads (chat 0) = Except.error e →
      extract_json_object loads (chat 1) = Except.ok o →
      llm_json loads chat 1 = Except.ok o) := by
  constructor
  · intro h
    unfold build_blackboard
    rw [h]
    rfl
  · intro o h0 h1
    unfold llm_json
    show llm_json_go loads chat 0 2 "Failed to get JSON from LLM" = Except.ok o
    unfold llm_json_go
    rw [h0]
    unfold llm_json_go
    rw [h1]

/-- Witness for `build_blackboard_no_retry`: an always-empty generator
output makes `build_blackboard` fail with the extractor's empty-output
error. -/
theorem build_blackboard_no_retry_witness :
    build_blackboard (fun _ => none) (fun _ => "") "m" 28 8
      = Except.error "Empty LLM output" :=
  (build_blackboard_no_retry (fun _ => none) (fun _ => "") "m" 28 8
    "Empty LLM output").1 rfl

/-- Validity of a fact entry (independent of its position). -/
def fact_valid (item : JVal) : Bool := (fact_entry 1 item).isSome

/-- Validity of an uncertainty entry (independent of its position). -/
def uncertainty_valid (item : JVal) : Bool := (uncertainty_entry 1 item).isSome

/-- The 1-based input positions of the retained fact entries. -/
def fact_positions (m : Nat) (xs : List JVal) : List Nat :=
  (xs.take m).enum.filterMap
    (fun q => if fact_valid q.2 then some (q.1 + 1) else none)

/-- The 1-based input positions of the retained uncertainty entries. -/
def uncertainty_positions (mu : Nat) (ys : List JVal) : List Nat :=
  (ys.take mu).enum.filterMap
    (fun q => if uncertainty_valid q.2 then some (q.1 + 1) else none)

theorem fact_entry_isSome (i j : Nat) (item : JVal) :
    (fact_entry i item).isSome = (fact_entry j item).isSome := by
  cases item <;> simp only [fact_entry] <;> split_ifs <;> rfl

theorem uncertainty_entry_isSome (i j : Nat) (item : JVal) :
    (uncertainty_entry i item).isSome = (uncertainty_entry j item).isSome := by
  cases item <;> simp only [uncertainty_entry] <;> split_ifs <;> rfl

theorem fact_entry_id (i : Nat) (item : JVal) (r : Obj)
    (h : fact_entry i item = some r) :
    objGet r "id" = JVal.jstr (format_fact_id i) := by
  match item with
  | JVal.jobj fs =>
    unfold fact_entry at h
    dsimp only at h
    split_ifs at h with h1
    all_goals
      first
        | exact Option.noConfusion h
        | (injection h with hw; subst hw; rfl)
  | JVal.jnull => exact Option.noConfusion h
  | JVal.jbool b => exact Option.noConfusion h
  | JVal.jint n => exact Option.noConfusion h
  | JVal.jstr s => exact Option.noConfusion h
  | JVal.jarr zs => exact Option.noConfusion h

theorem uncertainty_entry_id (i : Nat) (item : JVal) (r : Obj)
    (h : uncertainty_entry i item = some r) :
    objGet r "id" = JVal.jstr (format_uncertainty_id i) := by
  match item with
  | JVal.jobj fs =>
    unfold uncertainty_entry at h
    dsimp only at h
    split_ifs at h with h1
    all_goals
      first
        | exact Option.noConfusion h
        | (injection h with hw; subst hw; rfl)
  | JVal.jnull => exact Option.noConfusion h
  | JVal.jbool b => exact Option.noConfusion h
  | JVal.jint n => exact Option.noConfusion h
  | JVal.jstr s => exact Option.noConfusion h
  | JVal.jarr zs => exact Option.noConfusion h

theorem entry_ids_eq (entry : Nat → JVal → Option Obj) (fmt : Nat → String)
    (valid : JVal → Bool)
    (hid : ∀ i item r, entry i item = some r → objGet r "id" = JVal.jstr (fmt i))
    (hv : ∀ i item, (entry i item).isSome = valid item) :
    ∀ l : List (Nat × JVal),
      (l.filterMap (fun q => entry (q.1 + 1) q.2)).map (fun r => objGet r "id")
        = (l.filterMap (fun q => if valid q.2 then some (q.1 + 1) else none)).map
            (fun i => JVal.jstr (fmt i)) := by
  intro l
  induction l with
  | nil => rfl
  | cons q rest ih =>
    rcases hq : entry (q.1 + 1) q.2 with _ | r
    · have hvf : valid q.2 = false := by
        rw [← hv (q.1 + 1)]
        simp [hq]
      simp [List.filterMap_cons, hq, hvf, ih]
    · have hvt : valid q.2 = true := by
        rw [← hv (q.1 + 1)]
        simp [hq]
      simp [List.filterMap_cons, hq, hvt, ih, hid _ _ _ hq]

theorem positions_bound_pairwise (valid : JVal → Bool) (l : List JVal) :
    ∀ n : Nat,
    (∀ j ∈ (List.enumFrom n l).filterMap
        (fun q => if valid q.2 then some (q.1 + 1) else none), n < j) ∧
    List.Pairwise (· < ·) ((List.enumFrom n l).filterMap
        (fun q => if valid q.2 then some (q.1 + 1) else none)) := by
  induction l with
  | nil => intro n; simp
  | cons a rest ih =>
    intro n
    rw [List.enumFrom_cons]
    by_cases hva : valid a = true
    · simp only [List.filterMap_cons, hva, if_true]
      constructor
      · intro j hj
        rcases List.mem_cons.mp hj with rfl | hj'
        · omega
        · have := (ih (n + 1)).1 j hj'
          omega
      · refine List.pairwise_cons.mpr ⟨?_, (ih (n + 1)).2⟩
        intro j hj
        have := (ih (n + 1)).1 j hj
        omega
    · simp only [hva, Bool.false_eq_true, if_false, List.filterMap_cons]
      constructor
      · intro j hj
        have := (ih (n + 1)).1 j hj
        omega
      · exact (ih (n + 1)).2

theorem positions_all_valid (valid : JVal → Bool) (l : List JVal) :
    ∀ n : Nat, (∀ a ∈ l, valid a = true) →
    (List.enumFrom n l).filterMap
        (fun q => if valid q.2 then some (q.1 + 1) else none)
      = List.range' (n + 1) l.length := by
  induction l with
  | nil => intro n _; rfl
  | cons a rest ih =>
    intro n h
    rw [List.enumFrom_cons]
    simp only [List.filterMap_cons, h a (by simp), if_true]
    rw [ih (n + 1) (fun b hb => h b (by simp [hb]))]
    rfl

/-- **C6 counterexample**: a skipped (invalid) first entry leaves a gap —
the single retained fact of `[null, {text: "t", source: "cpi"}]` gets ID
`F02`, not `F01`: IDs come from `enumerate` positions over the raw input,
not from the retained sequence. -/
theorem blackboard_id_gap_cx :
    (build_facts 28 [JVal.jnull,
      JVal.jobj [("text", JVal.jstr "t"), ("source", JVal.jstr "cpi")]]).map
      (fun r => pyStr (objGet r "id")) = ["F02"] ∧ ("F02" : String) ≠ "F01" := by
  exact ⟨rfl, by decide⟩

/-- **C6 as amended**: fact and uncertainty IDs are `F{pos:02d}` /
`U{pos:02d}` formed from the 1-based *input* position of each retained
entry; the positions are strictly increasing (so IDs are distinct), and
the IDs are exactly the gap-free sequence `F01..F0k` / `U01..U0k`
precisely when no truncated input entry is skipped as invalid — a
skipped entry leaves a permanent gap. -/
theorem blackboard_id_assignment (m mu : Nat) (xs ys : List JVal) :
    ((build_facts m xs).map (fun r => objGet r "id")
      = (fact_positions m xs).map (fun i => JVal.jstr (format_fact_id i))) ∧
    List.Pairwise (· < ·) (fact_positions m xs) ∧
    ((∀ a ∈ xs.take m, fact_valid a = true) →
      (build_facts m xs).map (fun r => objGet r "id")
        = (List.range' 1 (min m xs.length)).map
            (fun i => JVal.jstr (format_fact_id i))) ∧
    ((build_uncertainties mu ys).map (fun r => objGet r "id")
      = (uncertainty_positions mu ys).map
          (fun i => JVal.jstr (format_uncertainty_id i))) ∧
    List.Pairwise (· < ·) (uncertainty_positions mu ys) ∧
    ((∀ a ∈ ys.take mu, uncertainty_valid a = true) →
      (build_uncertainties mu ys).map (fun r => objGet r "id")
        = (List.range' 1 (min mu ys.length)).map
            (fun i => JVal.jstr (format_uncertainty_id i))) := by
  have hfe : ∀ i item, (fact_entry i item).isSome = fact_valid item :=
    fun i item => fact_entry_isSome i 1 item
  have hue : ∀ i item, (uncertainty_entry i item).isSome = uncertainty_valid item :=
    fun i item => uncertainty_entry_isSome i 1 item
  have hf := entry_ids_eq fact_entry format_fact_id fact_valid
    fact_entry_id hfe (xs.take m).enum
  have hu := entry_ids_eq uncertainty_entry format_uncertainty_id
    uncertainty_valid uncertainty_entry_id hue (ys.take mu).enum
  refine ⟨hf, (positions_bound_pairwise fact_valid (xs.take m) 0).2, ?_, hu,
    (positions_bound_pairwise uncertainty_valid (ys.take mu) 0).2, ?_⟩
  · intro hall
    unfold build_facts
    rw [hf, show (xs.take m).enum = List.enumFrom 0 (xs.take m) from rfl,
      positions_all_valid fact_valid (xs.take m) 0 hall, List.length_take]
  · intro hall
    unfold build_uncertainties
    rw [hu, show (ys.take mu).enum = List.enumFrom 0 (ys.take mu) from rfl,
      positions_all_valid uncertainty_valid (ys.take mu) 0 hall, List.length_take]

/-- Witness for `blackboard_id_assignment`: two valid facts get the
sequential IDs `F01`, `F02`. -/
theorem blackboard_id_assignment_witness :
    (build_facts 28
      [JVal.jobj [("text", JVal.jstr "a"), ("source", JVal.jstr "macro")],
       JVal.jobj [("text", JVal.jstr "b"), ("source", JVal.jstr "nfp")]]).map
      (fun r => objGet r "id")
      = (List.range' 1 (min 28 (List.length
          [JVal.jobj [("text", JVal.jstr "a"), ("source", JVal.jstr "macro")],
           JVal.jobj [("text", JVal.jstr "b"), ("source", JVal.jstr "nfp")]]))).map
          (fun i => JVal.jstr (format_fact_id i)) :=
  (blackboard_id_assignment 28 8
    [JVal.jobj [("text", JVal.jstr "a"), ("source", JVal.jstr "macro")],
     JVal.jobj [("text", JVal.jstr "b"), ("source", JVal.jstr "nfp")]]
    []).2.2.1 (by decide)

/-- **C7 counterexample**: the cache check of
`ensure_meeting_discussion_pack` tests only 6 artifact names — a
manifest holding exactly those six (with `round_summaries` and
`packages` absent) is reported cached and triggers no regeneration,
although not all 8 artifact names were checked for existence. -/
theorem pack_cache_six_not_eight :
    (ensure_meeting_discussion_pack false pack_cache_keys).2 = true ∧
    pack_artifact_names.all (fun k => pack_cache_keys.contains k) = false := by
  decide

/-- **C7 as amended**: the cache check covers exactly the six names
`{discussion, statement, minutes_summary, votes, blackboard,
stance_cards}` (not all 8); when those six exist and `refresh` is unset
the call performs no regeneration and leaves the manifest untouched, and
a second invocation without `refresh` after any first call is always a
no-op returning the cached artifact set unchanged (a full run writes all
8 names, a cache hit implies the six are present). -/
theorem pack_caching_idempotent (refresh : Bool) (m : List String) :
    (pack_is_cached false m = true ↔ ∀ k ∈ pack_cache_keys, m.contains k = true) ∧
    ((∀ k ∈ pack_cache_keys, m.contains k = true) →
      ensure_meeting_discussion_pack false m = (m, true)) ∧
    (ensure_meeting_discussion_pack false
        (ensure_meeting_discussion_pack refresh m).1
      = ((ensure_meeting_discussion_pack refresh m).1, true)) := by
  have hiff : ∀ mm : List String,
      pack_is_cached false mm = true ↔ ∀ k ∈ pack_cache_keys, mm.contains k = true := by
    intro mm
    simp [pack_is_cached, List.all_eq_true]
  refine ⟨hiff m, ?_, ?_⟩
  · intro h
    unfold ensure_meeting_discussion_pack
    rw [if_pos ((hiff m).mpr h)]
  · by_cases hc : pack_is_cached refresh m = true
    · have hall := (hiff m).mpr ?_
      · unfold ensure_meeting_discussion_pack
        rw [if_pos hc]
        rw [if_pos hall]
      · intro k hk
        have hb : (!refresh && pack_cache_keys.all (fun k => m.contains k)) = true := hc
        have := (Bool.and_eq_true _ _).mp hb
        exact List.all_eq_true.mp this.2 k hk
    · unfold ensure_meeting_discussion_pack
      rw [if_neg hc]
      have hall : pack_is_cached false
          (m ++ pack_artifact_names.filter (fun k => !m.contains k)) = true := by
        refine (hiff _).mpr ?_
        intro k hk
        have hk8 : k ∈ pack_artifact_names := by
          have : ∀ j ∈ pack_cache_keys, j ∈ pack_artifact_names := by decide
          exact this k hk
        rw [List.elem_iff]
        by_cases hm : k ∈ m
        · exact List.mem_append.mpr (Or.inl hm)
        · refine List.mem_append.mpr (Or.inr ?_)
          refine List.mem_filter.mpr ⟨hk8, ?_⟩
          simp [List.elem_iff, hm]
      rw [if_pos hall]

/-- Witness for `pack_caching_idempotent`: a manifest holding all eight
artifact names is returned unchanged with `cached = true`. -/
theorem pack_caching_idempotent_witness :
    ensure_meeting_discussion_pack false pack_artifact_names
      = (pack_artifact_names, true) :=
  (pack_caching_idempotent false pack_artifact_names).2.1 (by decide)

/-- The render stage as invoked in the pipeline
(backend.py:648-659): every generation stage of
`ensure_meeting_discussion_pack` receives the llm handle (the `chat`
oracle in this embedding), while `render_discussion_markdown` is called
without it.  Supplying the (unused) oracle argument makes the
generator-independence of the render stage expressible as a theorem. -/
def render_with_oracle (_chat : Nat → String) (meeting_id : String)
    (blackboard : Obj) (crisis_mode : Bool) (stance_cards : Obj)
    (opening_speeches : List Obj) (chair_q : Obj) (qa_speeches : List Obj)
    (packages : Obj) (package_views : List JVal) (votes : List JVal) : String :=
  render_discussion_markdown meeting_id blackboard crisis_mode stance_cards
    opening_speeches chair_q qa_speeches packages package_views votes

/-- **C9**: `render_discussion_markdown` is pure deterministic
templating that never invokes the text-generation capability: its output
is identical for any two generator oracles and for any two calls with
equal inputs (blackboard, crisis_mode, stance cards, speeches, chair
questions, packages, package views, votes). -/
theorem render_pure_deterministic (g1 g2 : Nat → String)
    (mid : String) (bb : Obj) (cm : Bool) (sc : Obj) (os : List Obj)
    (cq : Obj) (qa : List Obj) (pk : Obj) (pv : List JVal) (vt : List JVal)
    (mid2 : String) (bb2 : Obj) (cm2 : Bool) (sc2 : Obj) (os2 : List Obj)
    (cq2 : Obj) (qa2 : List Obj) (pk2 : Obj) (pv2 : List JVal) (vt2 : List JVal)
    (h : mid = mid2 ∧ bb = bb2 ∧ cm = cm2 ∧ sc = sc2 ∧ os = os2 ∧ cq = cq2
      ∧ qa = qa2 ∧ pk = pk2 ∧ pv = pv2 ∧ vt = vt2) :
    render_with_oracle g1 mid bb cm sc os cq qa pk pv vt
      = render_with_oracle g2 mid2 bb2 cm2 sc2 os2 cq2 qa2 pk2 pv2 vt2 := by
  obtain ⟨rfl, rfl, rfl, rfl, rfl, rfl, rfl, rfl, rfl, rfl⟩ := h
  rfl

/-- Witness for `render_pure_deterministic`: two wildly different
oracles render a one-fact blackboard to the same transcript. -/
theorem render_pure_deterministic_witness :
    render_with_oracle (fun _ => "generator output A") "m1"
      [("facts", JVal.jarr [JVal.jobj [("id", JVal.jstr "F01"),
        ("text", JVal.jstr "t"), ("source", JVal.jstr "cpi")]])]
      false [] [] [] [] [] [] []
      = render_with_oracle (fun _ => "generator output B") "m1"
      [("facts", JVal.jarr [JVal.jobj [("id", JVal.jstr "F01"),
        ("text", JVal.jstr "t"), ("source", JVal.jstr "cpi")]])]
      false [] [] [] [] [] [] [] :=
  render_pure_deterministic (fun _ => "generator output A")
    (fun _ => "generator output B") "m1" _ false [] [] [] [] [] [] []
    "m1" _ false [] [] [] [] [] [] []
    ⟨rfl, rfl, rfl, rfl, rfl, rfl, rfl, rfl, rfl, rfl⟩

/-- **C10**: in `chair_propose_packages`, a (dict) candidate whose
`delta_bps` lies in the blackboard policy-menu deltas is always retained
— with its stance kept when in `{hawkish, neutral, dovish}` and coerced
to `"neutral"` otherwise, never discarded; a candidate is dropped only
when its `delta_bps` converts to a value outside the menu deltas (or
fails conversion / is not a dict); and when every candidate is dropped
the result is exactly one fallback package with key `"A"`, `delta_bps`
`0` and stance `"neutral"`. -/
theorem packages_retention (bb : Obj) (obj : Obj) :
    (∀ fs : Obj, ∀ d : Int, jToInt (objGet fs "delta_bps") = some d →
      (menu_allowed_deltas bb).contains d = true →
      package_of_candidate (menu_allowed_deltas bb) (JVal.jobj fs)
        = some [("key", JVal.jstr (candidate_key fs)),
                ("delta_bps", JVal.jint d),
                ("stance", JVal.jstr
                  (if candidate_stance fs = "hawkish"
                      ∨ candidate_stance fs = "neutral"
                      ∨ candidate_stance fs = "dovish"
                   then candidate_stance fs else "neutral")),
                ("guidance", JVal.jstr (candidate_guidance fs))]) ∧
    (∀ fs : Obj,
      package_of_candidate (menu_allowed_deltas bb) (JVal.jobj fs) = none →
      ∀ d : Int, jToInt (objGet fs "delta_bps") = some d →
        (menu_allowed_deltas bb).contains d = false) ∧
    (((ensure_list (objGet obj "packages")).take 3).filterMap
        (package_of_candidate (menu_allowed_deltas bb)) = [] →
      chair_packages_list bb obj = [fallback_package]) ∧
    objGet fallback_package "key" = JVal.jstr "A" ∧
    objGet fallback_package "delta_bps" = JVal.jint 0 ∧
    objGet fallback_package "stance" = JVal.jstr "neutral" := by
  refine ⟨?_, ?_, ?_, rfl, rfl, rfl⟩
  · intro fs d hd hc
    unfold package_of_candidate
    dsimp only
    rw [hd]
    simp only [hc, if_true]
  · intro fs h d hd
    unfold package_of_candidate at h
    dsimp only at h
    rw [hd] at h
    by_cases hc : (menu_allowed_deltas bb).contains d
    · simp only [hc, if_true] at h
      exact Option.noConfusion h
    · simpa using hc
  · intro h
    unfold chair_packages_list
    dsimp only
    rw [h]
    rfl

/-- Witness for `packages_retention`: a candidate with menu delta `0`
and junk stance `"AGGRESSIVE"` is retained as neutral with default key
`"A"`. -/
theorem packages_retention_witness :
    package_of_candidate (menu_allowed_deltas
      [("policy_menu", JVal.jarr [JVal.jobj
        [("key", JVal.jstr "hold"), ("delta_bps", JVal.jint 0)]])])
      (JVal.jobj [("delta_bps", JVal.jint 0),
        ("stance", JVal.jstr "AGGRESSIVE")])
      = some [("key", JVal.jstr "A"), ("delta_bps", JVal.jint 0),
              ("stance", JVal.jstr "neutral"), ("guidance", JVal.jstr "")] := by
  have h := (packages_retention
    [("policy_menu", JVal.jarr [JVal.jobj
      [("key", JVal.jstr "hold"), ("delta_bps", JVal.jint 0)]])] []).1
    [("delta_bps", JVal.jint 0), ("stance", JVal.jstr "AGGRESSIVE")]
    0 rfl (by decide)
  rw [h]
  rfl
